import Mathlib

/-! VulkanSph: particle buffer layout, staging upload, compute recording, frame loop.

A shallow embedding of `src/test_01/application.h` and `src/test_01/application.cpp`
(class `SPH::Application`) together with theorems about it.

Conventions of the embedding

* `uint64_t` values are natural numbers and every `uint64_t` operation is reduced
  modulo `2 ^ 64` explicitly; `int` operations are reduced to the 32-bit two's-complement
  range (`wrapInt`).
* The buffer layout and the position loop take the particle count as a parameter `N`;
  `SPH_NUM_PARTICLES` is its configured value.  The recorded command sequences use the
  configured values.
* `float` arithmetic is a parameter (`FloatArith`): the embedding fixes which operations
  are applied to which operands.  `binary32` is the arithmetic of the compiled code (every
  operation rounded to IEEE 754 binary32), `exactArith` computes in the rationals.
* Calls into Vulkan / GLFW are recorded, in program order, in a list of `Call`s; the
  value returned by a fallible call is supplied by a driver record.
* A member function yields an `Outcome`: the object it leaves, the calls it made, the
  message of the exception it threw, if any, and whether it stopped in a write through a
  null pointer.
-/

namespace SPH

/-! ## Configuration macros (`application.h`, lines 13-17) -/

/-- `#define SPH_NUM_PARTICLES 20000`. -/
def SPH_NUM_PARTICLES : Nat := 20000

/-- `#define SPH_WORK_GROUP_SIZE 128`. -/
def SPH_WORK_GROUP_SIZE : Nat := 128

/-- `INT_MAX` of the 32-bit `int` in which the macros are evaluated. -/
def INT_MAX : Int := 2147483647

/-- The value an `int` operation leaves when its mathematical result is `z`: `z` itself
when it is representable, otherwise `z` reduced modulo `2 ^ 32` into the two's-complement
range `[-2147483648, 2147483647]`, which is what the compiled code computes (the language
leaves signed overflow undefined). -/
def wrapInt (z : Int) : Int := (z + 2147483648) % 4294967296 - 2147483648

/-- `#define SPH_NUM_WORK_GROUPS ((SPH_NUM_PARTICLES + SPH_WORK_GROUP_SIZE - 1) / SPH_WORK_GROUP_SIZE)`
as a function of the two macros it expands.  The operands are `int` constants, so `+`,
`-` and `/` are `int` operations, applied left to right: `(N + G) - 1`, then the
division, which truncates toward zero. -/
def SPH_NUM_WORK_GROUPS (N G : Int) : Int :=
  wrapInt (Int.tdiv (wrapInt (wrapInt (N + G) - 1)) G)

/-- `sizeof(glm::vec2)`: two 32-bit floats. -/
def sizeof_vec2 : Nat := 8

/-- `sizeof(float)`. -/
def sizeof_float : Nat := 4

/-! ## Packed buffer layout (`application.h`, lines 163-176)

The members are `const uint64_t`; `N` is the value of `SPH_NUM_PARTICLES`. -/

/-- `positionSsboSize = sizeof(glm::vec2) * SPH_NUM_PARTICLES`. -/
def positionSsboSize (N : Nat) : Nat := (sizeof_vec2 * N) % 2 ^ 64

/-- `velocitySsboSize = sizeof(glm::vec2) * SPH_NUM_PARTICLES`. -/
def velocitySsboSize (N : Nat) : Nat := (sizeof_vec2 * N) % 2 ^ 64

/-- `forceSsboSize = sizeof(glm::vec2) * SPH_NUM_PARTICLES`. -/
def forceSsboSize (N : Nat) : Nat := (sizeof_vec2 * N) % 2 ^ 64

/-- `densitySsboSize = sizeof(float) * SPH_NUM_PARTICLES`. -/
def densitySsboSize (N : Nat) : Nat := (sizeof_float * N) % 2 ^ 64

/-- `pressureSsboSize = sizeof(float) * SPH_NUM_PARTICLES`. -/
def pressureSsboSize (N : Nat) : Nat := (sizeof_float * N) % 2 ^ 64

/-- `packedBufferSize = positionSsboSize + velocitySsboSize + forceSsboSize
+ densitySsboSize + pressureSsboSize` (left-associated `uint64_t` additions). -/
def packedBufferSize (N : Nat) : Nat :=
  ((((positionSsboSize N + velocitySsboSize N) % 2 ^ 64 + forceSsboSize N) % 2 ^ 64
      + densitySsboSize N) % 2 ^ 64 + pressureSsboSize N) % 2 ^ 64

/-- `positionSsboOffset = 0`. -/
def positionSsboOffset : Nat := 0

/-- `velocitySsboOffset = positionSsboSize`. -/
def velocitySsboOffset (N : Nat) : Nat := positionSsboSize N

/-- `forceSsboOffset = velocitySsboOffset + velocitySsboSize`. -/
def forceSsboOffset (N : Nat) : Nat := (velocitySsboOffset N + velocitySsboSize N) % 2 ^ 64

/-- `densitySsboOffset = forceSsboOffset + forceSsboSize`. -/
def densitySsboOffset (N : Nat) : Nat := (forceSsboOffset N + forceSsboSize N) % 2 ^ 64

/-- `pressureSsboOffset = densitySsboOffset + densitySsboSize`. -/
def pressureSsboOffset (N : Nat) : Nat := (densitySsboOffset N + densitySsboSize N) % 2 ^ 64

/-- The five sub-ranges as `(offset, size)` pairs in declaration order: position, velocity,
force, density, pressure. -/
def ssboRanges (N : Nat) : List (Nat × Nat) :=
  [ (positionSsboOffset, positionSsboSize N),
    (velocitySsboOffset N, velocitySsboSize N),
    (forceSsboOffset N, forceSsboSize N),
    (densitySsboOffset N, densitySsboSize N),
    (pressureSsboOffset N, pressureSsboSize N) ]

/-! ## Initial particle positions (`application.cpp`, lines 1100-1112) -/

/-- The `float` operations the source applies.  How a `float` rounds is not fixed here:
every theorem stated for an arbitrary `FloatArith` holds for whatever arithmetic the
compiler provides. -/
structure FloatArith (F : Type) where
  /-- The value of a floating literal with suffix `f`, named by its decimal value. -/
  lit : ℚ → F
  /-- The implicit conversion `int -> float`. -/
  ofInt : Int → F
  /-- Unary minus. -/
  neg : F → F
  /-- Binary `+` on two `float`s. -/
  add : F → F → F
  /-- Binary `*` on two `float`s. -/
  mul : F → F → F

/-- `#define SPH_PARTICLE_RADIUS 0.005f`. -/
def SPH_PARTICLE_RADIUS {F : Type} (ar : FloatArith F) : F := ar.lit 0.005

/-- `glm::vec2`: members `x` and `y`, in this order. -/
structure vec2 (F : Type) where
  x : F
  y : F
deriving DecidableEq

/-- The right-hand side `-0.625f + SPH_PARTICLE_RADIUS * 2 * x` for the `int` counter `x`. -/
def initialX {F : Type} (ar : FloatArith F) (x : Int) : F :=
  ar.add (ar.neg (ar.lit 0.625))
    (ar.mul (ar.mul (SPH_PARTICLE_RADIUS ar) (ar.ofInt 2)) (ar.ofInt x))

/-- The right-hand side `-1 + SPH_PARTICLE_RADIUS * 2 * y` for the `int` counter `y`. -/
def initialY {F : Type} (ar : FloatArith F) (y : Int) : F :=
  ar.add (ar.ofInt (-1))
    (ar.mul (ar.mul (SPH_PARTICLE_RADIUS ar) (ar.ofInt 2)) (ar.ofInt y))

/-- The variables the `for` statement changes besides `i`: the `int` counters `x`, `y` and
the vector `initialParticlePosition`. -/
structure GridLoop (F : Type) where
  x : Int
  y : Int
  initialParticlePosition : List (vec2 F)

/-- One execution of the loop body at index `i`:
`p[i].x = ...; p[i].y = ...; x++; if (x >= 125) { x = 0; y++; }`. -/
def gridLoopBody {F : Type} (ar : FloatArith F) (s : GridLoop F) (i : Nat) : GridLoop F :=
  let written := s.initialParticlePosition.set i { x := initialX ar s.x, y := initialY ar s.y }
  let x1 := s.x + 1
  if x1 ≥ 125 then { x := 0, y := s.y + 1, initialParticlePosition := written }
  else { x := x1, y := s.y, initialParticlePosition := written }

/-- The loop variables after the first `k` iterations (`i = 0, ..., k - 1`) of
`for (auto i = 0, x = 0, y = 0; i < SPH_NUM_PARTICLES; i++)`, started on the vector
`std::vector<glm::vec2> initialParticlePosition(SPH_NUM_PARTICLES)` of `N` zero elements. -/
def gridLoopAfter {F : Type} (ar : FloatArith F) (N k : Nat) : GridLoop F :=
  (List.range k).foldl (gridLoopBody ar)
    { x := 0, y := 0,
      initialParticlePosition := List.replicate N { x := ar.ofInt 0, y := ar.ofInt 0 } }

/-- The vector `initialParticlePosition` when the loop has run its `N` iterations. -/
def initialParticlePosition {F : Type} (ar : FloatArith F) (N : Nat) : List (vec2 F) :=
  (gridLoopAfter ar N N).initialParticlePosition

/-! ## The `float` arithmetic of the compiled code -/

/-- Host memory reached through a pointer: the byte stored at each offset from it. -/
abbrev Bytes := Nat → Nat

/-- `std::memset(dest, ch, count)`. -/
def memset (dest : Bytes) (ch count : Nat) : Bytes :=
  fun o => if o < count then ch % 256 else dest o

/-- `std::memcpy(dest, src, count)`. -/
def memcpy (dest src : Bytes) (count : Nat) : Bytes :=
  fun o => if o < count then src o else dest o

/-- `VkResult`: `VK_SUCCESS` is 0, every other value is some other return code. -/
abbrev VkResult := Int

/-- `VK_SUCCESS`. -/
def VK_SUCCESS : VkResult := 0

/-- Any Vulkan object handle other than a pipeline. -/
abbrev Handle := Nat

/-- `VK_NULL_HANDLE`. -/
def VK_NULL_HANDLE : Handle := 0

/-- `UINT64_MAX`. -/
def UINT64_MAX : Nat := 2 ^ 64 - 1

/-- `VkPipelineStageFlagBits` (Vulkan 1.0). -/
inductive VkPipelineStageFlagBits where
  | VK_PIPELINE_STAGE_TOP_OF_PIPE_BIT
  | VK_PIPELINE_STAGE_DRAW_INDIRECT_BIT
  | VK_PIPELINE_STAGE_VERTEX_INPUT_BIT
  | VK_PIPELINE_STAGE_VERTEX_SHADER_BIT
  | VK_PIPELINE_STAGE_TESSELLATION_CONTROL_SHADER_BIT
  | VK_PIPELINE_STAGE_TESSELLATION_EVALUATION_SHADER_BIT
  | VK_PIPELINE_STAGE_GEOMETRY_SHADER_BIT
  | VK_PIPELINE_STAGE_FRAGMENT_SHADER_BIT
  | VK_PIPELINE_STAGE_EARLY_FRAGMENT_TESTS_BIT
  | VK_PIPELINE_STAGE_LATE_FRAGMENT_TESTS_BIT
  | VK_PIPELINE_STAGE_COLOR_ATTACHMENT_OUTPUT_BIT
  | VK_PIPELINE_STAGE_COMPUTE_SHADER_BIT
  | VK_PIPELINE_STAGE_TRANSFER_BIT
  | VK_PIPELINE_STAGE_BOTTOM_OF_PIPE_BIT
  | VK_PIPELINE_STAGE_HOST_BIT
  | VK_PIPELINE_STAGE_ALL_GRAPHICS_BIT
  | VK_PIPELINE_STAGE_ALL_COMMANDS_BIT
deriving DecidableEq

/-- `VkPipelineStageFlags`: the set of bits that are or-ed together. -/
abbrev VkPipelineStageFlags := List VkPipelineStageFlagBits

/-- `VkPipelineBindPoint`. -/
inductive VkPipelineBindPoint where
  | VK_PIPELINE_BIND_POINT_GRAPHICS
  | VK_PIPELINE_BIND_POINT_COMPUTE
deriving DecidableEq

/-- `VkVertexInputBindingDescription { binding, stride, inputRate }` with
`inputRate = VK_VERTEX_INPUT_RATE_VERTEX` throughout. -/
structure VkVertexInputBindingDescription where
  binding : Nat
  stride : Nat
deriving DecidableEq

/-- `VkFormat`, as far as the source names formats of vertex attributes. -/
inductive VkFormat where
  | VK_FORMAT_R32G32_SFLOAT
deriving DecidableEq

/-- The number of bytes one element of the format occupies: two 32-bit floats. -/
def VkFormat.size : VkFormat → Nat
  | VkFormat.VK_FORMAT_R32G32_SFLOAT => 8

/-- `VkVertexInputAttributeDescription { location, binding, format, offset }`. -/
structure VkVertexInputAttributeDescription where
  location : Nat
  binding : Nat
  format : VkFormat
  offset : Nat
deriving DecidableEq

/-- A `VkPipeline` handle, identified with what the pipeline was created from: for a
compute pipeline the file the shader module was read from and the entry point, for the
graphics pipeline its two shader files and its vertex input bindings and attributes. -/
inductive VkPipeline where
  | VK_NULL_HANDLE
  | compute (shaderFile : String) (pName : String) (layout : Handle)
  | graphics (vertexShaderFile fragmentShaderFile : String)
      (vertexBindings : List VkVertexInputBindingDescription)
      (vertexAttributes : List VkVertexInputAttributeDescription)
deriving DecidableEq

/-- `VkDescriptorBufferInfo { buffer, offset, range }`. -/
structure VkDescriptorBufferInfo where
  buffer : Handle
  offset : Nat
  range : Nat
deriving DecidableEq

/-- `VkDescriptorType`, as far as the source names descriptor types. -/
inductive VkDescriptorType where
  | VK_DESCRIPTOR_TYPE_STORAGE_BUFFER
deriving DecidableEq

/-- `VkWriteDescriptorSet`: the members the source assigns; `pBufferInfo` points to one
`VkDescriptorBufferInfo`. -/
structure VkWriteDescriptorSet where
  dstSet : Handle
  dstBinding : Nat
  dstArrayElement : Nat
  descriptorCount : Nat
  descriptorType : VkDescriptorType
  pBufferInfo : VkDescriptorBufferInfo
deriving DecidableEq

/-- `VkBufferUsageFlagBits`, as far as the source names them. -/
inductive VkBufferUsageFlagBits where
  | VK_BUFFER_USAGE_TRANSFER_SRC_BIT
  | VK_BUFFER_USAGE_TRANSFER_DST_BIT
  | VK_BUFFER_USAGE_STORAGE_BUFFER_BIT
  | VK_BUFFER_USAGE_VERTEX_BUFFER_BIT
deriving DecidableEq

/-- `VkMemoryPropertyFlagBits`, as far as the source names them. -/
inductive VkMemoryPropertyFlagBits where
  | VK_MEMORY_PROPERTY_DEVICE_LOCAL_BIT
  | VK_MEMORY_PROPERTY_HOST_VISIBLE_BIT
  | VK_MEMORY_PROPERTY_HOST_COHERENT_BIT
deriving DecidableEq

/-- `VkMemoryRequirements { size, alignment, memoryTypeBits }`; bit `i` of
`memoryTypeBits` is `memoryTypeBits.testBit i`. -/
structure VkMemoryRequirements where
  size : Nat
  alignment : Nat
  memoryTypeBits : Nat
deriving DecidableEq

/-- `VkPhysicalDeviceMemoryProperties`: `memoryTypes[i].propertyFlags` for the
`memoryTypeCount` memory types, each as the set of its bits. -/
structure VkPhysicalDeviceMemoryProperties where
  memoryTypeCount : Nat
  memoryTypes : List (List VkMemoryPropertyFlagBits)
deriving DecidableEq

/-- `VkBufferCopy { srcOffset, dstOffset, size }`. -/
structure VkBufferCopy where
  srcOffset : Nat
  dstOffset : Nat
  size : Nat
deriving DecidableEq

/-- `VkSubmitInfo`: the arrays behind the count / pointer pairs. -/
structure VkSubmitInfo where
  pWaitSemaphores : List Handle
  pWaitDstStageMask : List VkPipelineStageFlags
  pCommandBuffers : List Handle
  pSignalSemaphores : List Handle
deriving DecidableEq

/-- `VkPresentInfoKHR`: the arrays behind the count / pointer pairs. -/
structure VkPresentInfoKHR where
  pWaitSemaphores : List Handle
  pSwapchains : List Handle
  pImageIndices : List Nat
deriving DecidableEq

/-- A command recorded into a command buffer (`vkCmd*`), with the arguments the source
passes. -/
inductive Cmd where
  | vkCmdBindDescriptorSets (pipelineBindPoint : VkPipelineBindPoint) (layout : Handle)
      (firstSet : Nat) (pDescriptorSets : List Handle)
  | vkCmdBindPipeline (pipelineBindPoint : VkPipelineBindPoint) (pipeline : VkPipeline)
  | vkCmdDispatch (groupCountX groupCountY groupCountZ : Int)
  | vkCmdPipelineBarrier (srcStageMask dstStageMask : VkPipelineStageFlags)
      (memoryBarrierCount bufferMemoryBarrierCount imageMemoryBarrierCount : Nat)
  | vkCmdBeginRenderPass (renderPass framebuffer : Handle)
  | vkCmdSetViewport
  | vkCmdSetScissor
  | vkCmdBindVertexBuffers (firstBinding : Nat) (pBuffers : List Handle)
      (pOffsets : List Nat)
  | vkCmdDraw (vertexCount instanceCount firstVertex firstInstance : Nat)
  | vkCmdEndRenderPass
  | vkCmdCopyBuffer (srcBuffer dstBuffer : Handle) (pRegions : List VkBufferCopy)
deriving DecidableEq

/-- A call into Vulkan, GLFW or the C library made by the host code. -/
inductive Call where
  | glfwPollEvents
  | glfwSetWindowTitle
  | vkCreateShaderModule (codeFile : String)
  | vkCreateComputePipelines (shaderFile : String) (pName : String) (layout : Handle)
  | vkAllocateCommandBuffers (commandPool : Handle) (commandBufferCount : Nat)
  | vkBeginCommandBuffer (commandBuffer : Handle)
  | vkResetCommandBuffer (commandBuffer : Handle)
  | vkEndCommandBuffer (commandBuffer : Handle)
  | record (commandBuffer : Handle) (cmd : Cmd)
  | vkQueueSubmit (queue : Handle) (pSubmits : List VkSubmitInfo) (fence : Handle)
  | vkAcquireNextImageKHR (swapchain : Handle) (timeout : Nat) (semaphore fence : Handle)
  | vkQueuePresentKHR (queue : Handle) (pPresentInfo : VkPresentInfoKHR)
  | vkQueueWaitIdle (queue : Handle)
  | vkDeviceWaitIdle
  | vkWaitForFences (pFences : List Handle)
  | vkCreateGraphicsPipelines (pipeline : VkPipeline)
  | vkAllocateDescriptorSets (descriptorPool : Handle) (pSetLayouts : List Handle)
  | vkUpdateDescriptorSets (pDescriptorWrites : List VkWriteDescriptorSet)
  | vkCreateBuffer (size : Nat) (usage : List VkBufferUsageFlagBits)
  | vkGetBufferMemoryRequirements (buffer : Handle)
  | vkGetPhysicalDeviceMemoryProperties
  | vkAllocateMemory (allocationSize : Nat) (memoryTypeIndex : Option Nat)
  | vkBindBufferMemory (buffer memory : Handle) (memoryOffset : Nat)
  | vkMapMemory (memory : Handle) (offset size : Nat)
  | vkUnmapMemory (memory : Handle)
  | memset (ch count : Nat)
  | memcpy (count : Nat)
  | vkFreeCommandBuffers (commandPool : Handle) (pCommandBuffers : List Handle)
  | vkFreeMemory (memory : Handle)
  | vkDestroyBuffer (buffer : Handle)
  | vkDestroySwapchainKHR (swapchain : Handle)
  | vkDestroySurfaceKHR (surface : Handle)
  | vkDestroyDevice (device : Handle)
  | vkDestroyInstance (instanceHandle : Handle)
  | glfwDestroyWindow
  | glfwTerminate
  | vkGetDeviceQueue (queueFamilyIndex queueIndex : Nat)
deriving DecidableEq

/-! ## The application object (`application.h`, lines 71-161) -/

/-- The data members of `SPH::Application` that the embedded functions read or write.
The array `computePipelineHandles[3]` is a triple: components `.1`, `.2.1`, `.2.2` are
the elements with index 0, 1, 2. -/
structure Application where
  paused : Bool
  frameNumber : Nat
  windowShouldClose : Bool
  graphicsPresentationComputeQueueFamilyIndex : Nat
  presentationQueueHandle : Handle
  graphicsQueueHandle : Handle
  computeQueueHandle : Handle
  swapchainHandle : Handle
  instanceHandle : Handle
  surfaceHandle : Handle
  logicalDeviceHandle : Handle
  globalDescriptorPoolHandle : Handle
  packedParticlesMemoryHandle : Handle
  computeDescriptorSetLayoutHandle : Handle
  renderPassHandle : Handle
  swapchainFrameBufferHandles : List Handle
  packedParticlesBufferHandle : Handle
  graphicsPipelineHandle : VkPipeline
  graphicsCommandPoolHandle : Handle
  computeCommandPoolHandle : Handle
  graphicsCommandBufferHandles : List Handle
  computePipelineHandles : VkPipeline × VkPipeline × VkPipeline
  imageAvailableSemaphoreHandle : Handle
  renderFinishedSemaphoreHandle : Handle
  computeDescriptorSetHandle : Handle
  computePipelineLayoutHandle : Handle
  computeCommandBufferHandle : Handle
  imageIndex : Nat
  graphicsSubmitInfo_pCommandBuffers : List Handle
deriving DecidableEq

/-- The member initialisers of the class: `paused = false`, `frameNumber = 1`,
`graphicsPresentationComputeQueueFamilyIndex = UINT32_MAX`, every handle
`VK_NULL_HANDLE`, `graphicsSubmitInfo.pCommandBuffers = VK_NULL_HANDLE`. -/
def Application.constructed : Application where
  paused := false
  frameNumber := 1
  windowShouldClose := false
  graphicsPresentationComputeQueueFamilyIndex := 2 ^ 32 - 1
  presentationQueueHandle := VK_NULL_HANDLE
  graphicsQueueHandle := VK_NULL_HANDLE
  computeQueueHandle := VK_NULL_HANDLE
  swapchainHandle := VK_NULL_HANDLE
  instanceHandle := VK_NULL_HANDLE
  surfaceHandle := VK_NULL_HANDLE
  logicalDeviceHandle := VK_NULL_HANDLE
  globalDescriptorPoolHandle := VK_NULL_HANDLE
  packedParticlesMemoryHandle := VK_NULL_HANDLE
  computeDescriptorSetLayoutHandle := VK_NULL_HANDLE
  renderPassHandle := VK_NULL_HANDLE
  swapchainFrameBufferHandles := []
  packedParticlesBufferHandle := VK_NULL_HANDLE
  graphicsPipelineHandle := VkPipeline.VK_NULL_HANDLE
  graphicsCommandPoolHandle := VK_NULL_HANDLE
  computeCommandPoolHandle := VK_NULL_HANDLE
  graphicsCommandBufferHandles := []
  computePipelineHandles :=
    (VkPipeline.VK_NULL_HANDLE, VkPipeline.VK_NULL_HANDLE, VkPipeline.VK_NULL_HANDLE)
  imageAvailableSemaphoreHandle := VK_NULL_HANDLE
  renderFinishedSemaphoreHandle := VK_NULL_HANDLE
  computeDescriptorSetHandle := VK_NULL_HANDLE
  computePipelineLayoutHandle := VK_NULL_HANDLE
  computeCommandBufferHandle := VK_NULL_HANDLE
  imageIndex := 0
  graphicsSubmitInfo_pCommandBuffers := []

/-- `computeSubmitInfo` (lines 123-134): no wait semaphore, one command buffer read through
`&computeCommandBufferHandle`, no signal semaphore. -/
def Application.computeSubmitInfo (app : Application) : VkSubmitInfo where
  pWaitSemaphores := []
  pWaitDstStageMask := []
  pCommandBuffers := [app.computeCommandBufferHandle]
  pSignalSemaphores := []

/-- `graphicsSubmitInfo` (lines 137-149): waits for `imageAvailableSemaphoreHandle` at
`wait_dst_stage_mask`, one command buffer, signals `renderFinishedSemaphoreHandle`. -/
def Application.graphicsSubmitInfo (app : Application) : VkSubmitInfo where
  pWaitSemaphores := [app.imageAvailableSemaphoreHandle]
  pWaitDstStageMask :=
    [[VkPipelineStageFlagBits.VK_PIPELINE_STAGE_COLOR_ATTACHMENT_OUTPUT_BIT]]
  pCommandBuffers := app.graphicsSubmitInfo_pCommandBuffers
  pSignalSemaphores := [app.renderFinishedSemaphoreHandle]

/-- `presentInfo` (lines 151-161): waits for `renderFinishedSemaphoreHandle`, one
swapchain, the image index read through `&imageIndex`. -/
def Application.presentInfo (app : Application) : VkPresentInfoKHR where
  pWaitSemaphores := [app.renderFinishedSemaphoreHandle]
  pSwapchains := [app.swapchainHandle]
  pImageIndices := [app.imageIndex]

/-- What a member function leaves behind: the object, the calls it made in program order,
the message of the `std::runtime_error` it threw (`none` when it did not throw), and
whether it stopped inside its last call, which wrote through a null pointer and did not
return.  The function returned normally when `thrown = none` and `crashed = false`. -/
structure Outcome where
  app : Application
  calls : List Call
  thrown : Option String
  crashed : Bool := false
deriving DecidableEq

/-- Sequencing of two statements: the second runs only when the first returned. -/
def Outcome.andThen (first : Outcome) (next : Application → Outcome) : Outcome :=
  match first.thrown, first.crashed with
  | none, false =>
      let second := next first.app
      { app := second.app, calls := first.calls ++ second.calls, thrown := second.thrown,
        crashed := second.crashed }
  | _, _ => first

/-- A member function that returns normally without calling out. -/
def Outcome.ok (app : Application) : Outcome :=
  { app := app, calls := [], thrown := none }

/-- The commands recorded into command buffer `commandBuffer` by a sequence of calls. -/
def recordedInto (commandBuffer : Handle) (calls : List Call) : List Cmd :=
  calls.filterMap fun c =>
    match c with
    | Call.record b cmd => if b = commandBuffer then some cmd else none
    | _ => none

/-- The kind of a recorded command. -/
inductive CmdKind where
  | bindDescriptorSets
  | bindPipeline
  | dispatch
  | pipelineBarrier
  | other
deriving DecidableEq

/-- Classifies a recorded command. -/
def Cmd.kind : Cmd → CmdKind
  | Cmd.vkCmdBindDescriptorSets _ _ _ _ => CmdKind.bindDescriptorSets
  | Cmd.vkCmdBindPipeline _ _ => CmdKind.bindPipeline
  | Cmd.vkCmdDispatch _ _ _ => CmdKind.dispatch
  | Cmd.vkCmdPipelineBarrier _ _ _ _ _ => CmdKind.pipelineBarrier
  | _ => CmdKind.other

/-- Whether pipeline stage `stage` belongs to the scope named by the stage mask `mask`:
its own bit is set, or `ALL_COMMANDS` is set, or `ALL_GRAPHICS` is set and the stage is a
stage of the graphics pipeline. -/
def stageInScope (mask : VkPipelineStageFlags) (stage : VkPipelineStageFlagBits) : Bool :=
  mask.contains stage
  || mask.contains VkPipelineStageFlagBits.VK_PIPELINE_STAGE_ALL_COMMANDS_BIT
  || (mask.contains VkPipelineStageFlagBits.VK_PIPELINE_STAGE_ALL_GRAPHICS_BIT
      && !(stage = VkPipelineStageFlagBits.VK_PIPELINE_STAGE_COMPUTE_SHADER_BIT
          || stage = VkPipelineStageFlagBits.VK_PIPELINE_STAGE_TRANSFER_BIT
          || stage = VkPipelineStageFlagBits.VK_PIPELINE_STAGE_HOST_BIT
          || stage = VkPipelineStageFlagBits.VK_PIPELINE_STAGE_ALL_COMMANDS_BIT))

/-- The pipeline stage in which a draw reads the buffers bound with
`vkCmdBindVertexBuffers`. -/
def vertexBufferReadStage : VkPipelineStageFlagBits :=
  VkPipelineStageFlagBits.VK_PIPELINE_STAGE_VERTEX_INPUT_BIT

/-! ## Compute pipelines (`application.cpp`, lines 970-1010) -/

/-- `MU_SHADER_PATH` (its default in `application.h`, line 11). -/
def MU_SHADER_PATH : String := "D:/cg/vulkan/temp/csy_cpp_vulkan/csySph/test_01/shader/"

/-- Return codes of the fallible calls of `CreateComputePipelines`; the index is the
position (0, 1, 2) of the block that makes the call. -/
structure PipelineDriver where
  vkCreateShaderModule : Nat → VkResult
  vkCreateComputePipelines : Nat → VkResult

/-- The assignment to `computePipelineHandles[k]` made by `vkCreateComputePipelines`
through its last argument `&computePipelineHandles[k]`. -/
def setComputePipelineHandle (app : Application) (k : Nat) (pipeline : VkPipeline) :
    Application :=
  match k with
  | 0 => { app with computePipelineHandles :=
      (pipeline, app.computePipelineHandles.2.1, app.computePipelineHandles.2.2) }
  | 1 => { app with computePipelineHandles :=
      (app.computePipelineHandles.1, pipeline, app.computePipelineHandles.2.2) }
  | _ => { app with computePipelineHandles :=
      (app.computePipelineHandles.1, app.computePipelineHandles.2.1, pipeline) }

/-- One of the three blocks of `CreateComputePipelines`: read the shader file
(`CsySmallVk::readFile`, declared in `vkcsy.h`, is taken to return the bytes of the file),
create the shader module from them (`CreateShaderModule`, lines 589-598), create the
pipeline with entry point `"main"` and layout `computePipelineLayoutHandle` into
`computePipelineHandles[k]`. -/
def createComputePipelineBlock (drv : PipelineDriver) (k : Nat) (file : String)
    (app : Application) : Outcome :=
  let codeFile := MU_SHADER_PATH ++ file
  if drv.vkCreateShaderModule k ≠ VK_SUCCESS then
    { app := app, calls := [Call.vkCreateShaderModule codeFile],
      thrown := some "fail to create shader module" }
  else
    let calls :=
      [Call.vkCreateShaderModule codeFile,
       Call.vkCreateComputePipelines codeFile "main" app.computePipelineLayoutHandle]
    if drv.vkCreateComputePipelines k ≠ VK_SUCCESS then
      { app := app, calls := calls, thrown := some "first compute pipeline creation failed" }
    else
      { app := setComputePipelineHandle app k
          (VkPipeline.compute codeFile "main" app.computePipelineLayoutHandle),
        calls := calls, thrown := none }

/-- `Application::CreateComputePipelines`. -/
def CreateComputePipelines (drv : PipelineDriver) (app : Application) : Outcome :=
  (createComputePipelineBlock drv 0 "compute_density_pressure.comp.spv" app).andThen fun app =>
    (createComputePipelineBlock drv 1 "compute_force.comp.spv" app).andThen fun app =>
      createComputePipelineBlock drv 2 "integrate.comp.spv" app

/-! ## Compute command buffer (`application.cpp`, lines 1025-1066) -/

/-- Return codes of the fallible calls of `CreateComputeCommandBuffer` and the handle
`vkAllocateCommandBuffers` writes to `computeCommandBufferHandle`. -/
structure RecordingDriver where
  vkAllocateCommandBuffers : VkResult
  allocated : Handle
  vkBeginCommandBuffer : VkResult
  vkEndCommandBuffer : VkResult

/-- The commands between `vkBeginCommandBuffer` and `vkEndCommandBuffer` of
`CreateComputeCommandBuffer` (lines 1041-1063), in program order. -/
def computeCommands (app : Application) : List Cmd :=
  let groups := SPH_NUM_WORK_GROUPS (SPH_NUM_PARTICLES : Int) (SPH_WORK_GROUP_SIZE : Int)
  let computeToCompute :=
    Cmd.vkCmdPipelineBarrier
      [VkPipelineStageFlagBits.VK_PIPELINE_STAGE_COMPUTE_SHADER_BIT]
      [VkPipelineStageFlagBits.VK_PIPELINE_STAGE_COMPUTE_SHADER_BIT] 0 0 0
  [ Cmd.vkCmdBindDescriptorSets VkPipelineBindPoint.VK_PIPELINE_BIND_POINT_COMPUTE
      app.computePipelineLayoutHandle 0 [app.computeDescriptorSetHandle],
    Cmd.vkCmdBindPipeline VkPipelineBindPoint.VK_PIPELINE_BIND_POINT_COMPUTE
      app.computePipelineHandles.1,
    Cmd.vkCmdDispatch groups 1 1,
    computeToCompute,
    Cmd.vkCmdBindPipeline VkPipelineBindPoint.VK_PIPELINE_BIND_POINT_COMPUTE
      app.computePipelineHandles.2.1,
    Cmd.vkCmdDispatch groups 1 1,
    computeToCompute,
    Cmd.vkCmdBindPipeline VkPipelineBindPoint.VK_PIPELINE_BIND_POINT_COMPUTE
      app.computePipelineHandles.2.2,
    Cmd.vkCmdDispatch groups 1 1,
    computeToCompute ]

/-- `Application::CreateComputeCommandBuffer`.  The results of `vkAllocateCommandBuffers`
and `vkBeginCommandBuffer` are tested; the result of `vkEndCommandBuffer` is discarded. -/
def CreateComputeCommandBuffer (drv : RecordingDriver) (app : Application) : Outcome :=
  let allocate := Call.vkAllocateCommandBuffers app.computeCommandPoolHandle 1
  if drv.vkAllocateCommandBuffers ≠ VK_SUCCESS then
    { app := app, calls := [allocate], thrown := some "buffer allocation failed" }
  else
    let app := { app with computeCommandBufferHandle := drv.allocated }
    let cb := app.computeCommandBufferHandle
    if drv.vkBeginCommandBuffer ≠ VK_SUCCESS then
      { app := app, calls := [allocate, Call.vkBeginCommandBuffer cb],
        thrown := some "command buffer begin failed" }
    else
      { app := app,
        calls := [allocate, Call.vkBeginCommandBuffer cb]
          ++ (computeCommands app).map (Call.record cb)
          ++ [Call.vkEndCommandBuffer cb],
        thrown := none }

/-! ## Graphics command buffers (`application.cpp`, lines 780-851) -/

/-- Return codes of the tested calls of `CreateGraphicsCommandBuffers` and the handles
`vkAllocateCommandBuffers` writes; `vkEndCommandBuffer i` is the result for buffer `i`. -/
structure GraphicsRecordingDriver where
  vkAllocateCommandBuffers : VkResult
  allocated : List Handle
  vkEndCommandBuffer : Nat → VkResult

/-- The commands recorded into graphics command buffer `i` (lines 819-843). -/
def graphicsCommands (app : Application) (i : Nat) : List Cmd :=
  [ Cmd.vkCmdBeginRenderPass app.renderPassHandle
      (app.swapchainFrameBufferHandles.getD i VK_NULL_HANDLE),
    Cmd.vkCmdSetViewport,
    Cmd.vkCmdSetScissor,
    Cmd.vkCmdBindPipeline VkPipelineBindPoint.VK_PIPELINE_BIND_POINT_GRAPHICS
      app.graphicsPipelineHandle,
    Cmd.vkCmdBindVertexBuffers 0 [app.packedParticlesBufferHandle] [0],
    Cmd.vkCmdDraw SPH_NUM_PARTICLES 1 0 0,
    Cmd.vkCmdEndRenderPass ]

/-- The body of the `for` loop of `CreateGraphicsCommandBuffers` for index `i`. -/
def recordGraphicsCommandBuffer (drv : GraphicsRecordingDriver) (i : Nat)
    (app : Application) : Outcome :=
  let cb := app.graphicsCommandBufferHandles.getD i VK_NULL_HANDLE
  { app := app,
    calls := [Call.vkBeginCommandBuffer cb]
      ++ (graphicsCommands app i).map (Call.record cb)
      ++ [Call.vkEndCommandBuffer cb],
    thrown :=
      if drv.vkEndCommandBuffer i ≠ VK_SUCCESS then some "command buffer creation failed"
      else none }

/-- `Application::CreateGraphicsCommandBuffers`. -/
def CreateGraphicsCommandBuffers (drv : GraphicsRecordingDriver) (app : Application) :
    Outcome :=
  let count := app.swapchainFrameBufferHandles.length
  let allocate := Call.vkAllocateCommandBuffers app.graphicsCommandPoolHandle count
  if drv.vkAllocateCommandBuffers ≠ VK_SUCCESS then
    { app := { app with graphicsCommandBufferHandles := List.replicate count VK_NULL_HANDLE },
      calls := [allocate], thrown := some "command buffers allocation failed" }
  else
    let app := { app with graphicsCommandBufferHandles :=
      (List.range count).map fun i => drv.allocated.getD i VK_NULL_HANDLE }
    (List.range count).foldl
      (fun done i => done.andThen (recordGraphicsCommandBuffer drv i))
      { app := app, calls := [allocate], thrown := none }

/-! ## Input callback (`application.cpp`, lines 69-80) -/

/-- The `key` argument of the key callback. -/
inductive GlfwKey where
  | GLFW_KEY_SPACE
  | GLFW_KEY_ESCAPE
  | otherKey (code : Int)
deriving DecidableEq

/-- The `action` argument of the key callback. -/
inductive GlfwAction where
  | GLFW_RELEASE
  | GLFW_PRESS
  | GLFW_REPEAT
deriving DecidableEq

/-- One invocation of the key callback. -/
structure KeyEvent where
  key : GlfwKey
  action : GlfwAction
deriving DecidableEq

/-- The lambda `key_callback`: space pressed toggles `paused`, escape pressed sets the
window's close flag. -/
def key_callback (app : Application) (e : KeyEvent) : Application :=
  let app :=
    if e.key = GlfwKey.GLFW_KEY_SPACE ∧ e.action = GlfwAction.GLFW_PRESS then
      { app with paused := !app.paused }
    else app
  if e.key = GlfwKey.GLFW_KEY_ESCAPE ∧ e.action = GlfwAction.GLFW_PRESS then
    { app with windowShouldClose := true }
  else app

/-- `glfwPollEvents()`: the key callback runs once for every pending key event. -/
def glfwPollEvents (events : List KeyEvent) (app : Application) : Outcome :=
  { app := events.foldl key_callback app, calls := [Call.glfwPollEvents], thrown := none }

/-! ## One frame (`application.cpp`, lines 1168-1222) -/

/-- What the outside world does during one call of `MainLoop`: the key events delivered by
`glfwPollEvents`, the return code of each Vulkan call, the value `vkAcquireNextImageKHR`
leaves in `imageIndex`, and the handle found at
`graphicsCommandBufferHandles.data() + imageIndex` when `imageIndex` is not an index of
the vector (the program does not determine what lies there). -/
structure FrameDriver where
  keyEvents : List KeyEvent
  computeSubmit : VkResult
  acquireNextImage : VkResult
  acquiredImageIndex : Nat
  commandBufferPastEnd : Handle
  graphicsSubmit : VkResult
  present : VkResult
  waitIdle : VkResult

/-- `Application::RunSimulation`. -/
def RunSimulation (drv : FrameDriver) (app : Application) : Outcome :=
  { app := app,
    calls := [Call.vkQueueSubmit app.computeQueueHandle [app.computeSubmitInfo] VK_NULL_HANDLE],
    thrown :=
      if drv.computeSubmit ≠ VK_SUCCESS then some "compute queue submission failed"
      else none }

/-- `Application::Render`.  Only the result of `vkQueueSubmit` is tested.
`graphicsSubmitInfo.commandBufferCount` is 1 throughout, and `pCommandBuffers` points at
element `imageIndex` of `graphicsCommandBufferHandles`. -/
def Render (drv : FrameDriver) (app : Application) : Outcome :=
  let acquire :=
    Call.vkAcquireNextImageKHR app.swapchainHandle UINT64_MAX
      app.imageAvailableSemaphoreHandle VK_NULL_HANDLE
  let app := { app with imageIndex := drv.acquiredImageIndex }
  let app := { app with graphicsSubmitInfo_pCommandBuffers :=
    [app.graphicsCommandBufferHandles.getD app.imageIndex drv.commandBufferPastEnd] }
  let submit := Call.vkQueueSubmit app.graphicsQueueHandle [app.graphicsSubmitInfo] VK_NULL_HANDLE
  if drv.graphicsSubmit ≠ VK_SUCCESS then
    { app := app, calls := [acquire, submit], thrown := some "graphics queue submission failed" }
  else
    { app := app,
      calls := [acquire, submit,
        Call.vkQueuePresentKHR app.presentationQueueHandle app.presentInfo,
        Call.vkQueueWaitIdle app.presentationQueueHandle],
      thrown := none }

/-- `Application::MainLoop`: poll events, step the simulation if not paused (`frameNumber++`
on the `std::atomic_uint64_t`), render, update the window title. -/
def MainLoop (drv : FrameDriver) (app : Application) : Outcome :=
  (glfwPollEvents drv.keyEvents app).andThen fun app =>
    (if !app.paused then
      (RunSimulation drv app).andThen fun app =>
        Outcome.ok { app with frameNumber := (app.frameNumber + 1) % 2 ^ 64 }
    else Outcome.ok app).andThen fun app =>
      (Render drv app).andThen fun app =>
        { app := app, calls := [Call.glfwSetWindowTitle], thrown := none }

/-! ## The frame loop and teardown (`application.cpp`, lines 23-42 and 1224-1240) -/

/-- Consecutive calls of `MainLoop`, one per driver in the list; an exception thrown by
one call ends the sequence. -/
def MainLoopIterations : List FrameDriver → Application → Outcome
  | [], app => Outcome.ok app
  | d :: ds, app => (MainLoop d app).andThen (MainLoopIterations ds)

/-- Whether in each of the iterations the value of `paused` tested by `if (!paused)`,
that is its value after `glfwPollEvents`, is `b`. -/
def pausedAtEveryCheck (b : Bool) : List FrameDriver → Application → Bool
  | [], _ => true
  | d :: ds, app =>
      ((glfwPollEvents d.keyEvents app).app.paused == b)
        && pausedAtEveryCheck b ds (MainLoop d app).app

/-- `Application::Run`: `while (!glfwWindowShouldClose(window)) MainLoop();` with one
driver per iteration.  The result is `none` when the listed drivers are used up while
the close flag is still clear.  (The detached thread that prints `frameNumber` after 20
seconds makes no call recorded here.) -/
def Run : List FrameDriver → Application → Option Outcome
  | [], app => if app.windowShouldClose then some (Outcome.ok app) else none
  | d :: ds, app =>
      if app.windowShouldClose then some (Outcome.ok app)
      else
        let frame := MainLoop d app
        match frame.thrown, frame.crashed with
        | none, false =>
            (Run ds frame.app).map fun rest =>
              { app := rest.app, calls := frame.calls ++ rest.calls, thrown := rest.thrown,
                crashed := rest.crashed }
        | _, _ => some frame

/-- `Application::destroyVulkan` (lines 36-42). -/
def destroyVulkan (app : Application) : Outcome :=
  { app := app,
    calls :=
      [Call.vkDestroySwapchainKHR app.swapchainHandle,
       Call.vkDestroySurfaceKHR app.surfaceHandle,
       Call.vkDestroyDevice app.logicalDeviceHandle,
       Call.vkDestroyInstance app.instanceHandle],
    thrown := none }

/-- `Application::destroyWindow` (lines 30-34). -/
def destroyWindow (app : Application) : Outcome :=
  { app := app, calls := [Call.glfwDestroyWindow, Call.glfwTerminate], thrown := none }

/-- `Application::~Application` (lines 23-28): `destroyVulkan(); destroyWindow();`. -/
def Application.destructor (app : Application) : Outcome :=
  (destroyVulkan app).andThen destroyWindow

/-! ## Graphics pipeline (`application.cpp`, lines 600-767) -/

/-- Return codes of the fallible calls of `CreateGraphicsPipeline`: the two calls of
`CreateShaderModule` (index 0 vertex, 1 fragment) and `vkCreateGraphicsPipelines`. -/
structure GraphicsPipelineDriver where
  vkCreateShaderModule : Nat → VkResult
  vkCreateGraphicsPipelines : VkResult

/-- `Application::CreateGraphicsPipeline`, as far as shader stages and vertex input state
go: one binding `{0, sizeof(glm::vec2), VK_VERTEX_INPUT_RATE_VERTEX}` and one attribute
`{0, 0, VK_FORMAT_R32G32_SFLOAT, 0}`. -/
def CreateGraphicsPipeline (drv : GraphicsPipelineDriver) (app : Application) : Outcome :=
  let vertexFile := MU_SHADER_PATH ++ "particle.vert.spv"
  let fragmentFile := MU_SHADER_PATH ++ "particle.frag.spv"
  if drv.vkCreateShaderModule 0 ≠ VK_SUCCESS then
    { app := app, calls := [Call.vkCreateShaderModule vertexFile],
      thrown := some "fail to create shader module" }
  else if drv.vkCreateShaderModule 1 ≠ VK_SUCCESS then
    { app := app,
      calls := [Call.vkCreateShaderModule vertexFile, Call.vkCreateShaderModule fragmentFile],
      thrown := some "fail to create shader module" }
  else
    let pipeline :=
      VkPipeline.graphics vertexFile fragmentFile
        [{ binding := 0, stride := sizeof_vec2 }]
        [{ location := 0, binding := 0, format := VkFormat.VK_FORMAT_R32G32_SFLOAT,
           offset := 0 }]
    let calls :=
      [Call.vkCreateShaderModule vertexFile, Call.vkCreateShaderModule fragmentFile,
       Call.vkCreateGraphicsPipelines pipeline]
    if drv.vkCreateGraphicsPipelines ≠ VK_SUCCESS then
      { app := app, calls := calls, thrown := some "graphics pipeline creation failed" }
    else
      { app := { app with graphicsPipelineHandle := pipeline }, calls := calls,
        thrown := none }

/-! ## Compute descriptor set (`application.cpp`, lines 911-956) -/

/-- Return code of `vkAllocateDescriptorSets` and the handle it writes to
`computeDescriptorSetHandle`. -/
structure DescriptorDriver where
  vkAllocateDescriptorSets : VkResult
  allocated : Handle

/-- The array `descriptorBufferInfos[5]` (lines 923-938) for particle count `N`. -/
def descriptorBufferInfos (N : Nat) (app : Application) : List VkDescriptorBufferInfo :=
  [ { buffer := app.packedParticlesBufferHandle, offset := positionSsboOffset,
      range := positionSsboSize N },
    { buffer := app.packedParticlesBufferHandle, offset := velocitySsboOffset N,
      range := velocitySsboSize N },
    { buffer := app.packedParticlesBufferHandle, offset := forceSsboOffset N,
      range := forceSsboSize N },
    { buffer := app.packedParticlesBufferHandle, offset := densitySsboOffset N,
      range := densitySsboSize N },
    { buffer := app.packedParticlesBufferHandle, offset := pressureSsboOffset N,
      range := pressureSsboSize N } ]

/-- The array `writeDescriptorSets[5]` filled by the loop of lines 942-952: element
`index` has `dstBinding = index` and `pBufferInfo = &descriptorBufferInfos[index]`. -/
def writeDescriptorSets (N : Nat) (app : Application) : List VkWriteDescriptorSet :=
  ((List.range 5).zip (descriptorBufferInfos N app)).map fun entry =>
    { dstSet := app.computeDescriptorSetHandle,
      dstBinding := entry.1,
      dstArrayElement := 0,
      descriptorCount := 1,
      descriptorType := VkDescriptorType.VK_DESCRIPTOR_TYPE_STORAGE_BUFFER,
      pBufferInfo := entry.2 }

/-- `Application::UpdateComputeDescriptorSets` for particle count `N`. -/
def UpdateComputeDescriptorSets (drv : DescriptorDriver) (N : Nat) (app : Application) :
    Outcome :=
  let allocate :=
    Call.vkAllocateDescriptorSets app.globalDescriptorPoolHandle
      [app.computeDescriptorSetLayoutHandle]
  if drv.vkAllocateDescriptorSets ≠ VK_SUCCESS then
    { app := app, calls := [allocate],
      thrown := some "compute descriptor set allocation failed" }
  else
    let app := { app with computeDescriptorSetHandle := drv.allocated }
    { app := app,
      calls := [allocate, Call.vkUpdateDescriptorSets (writeDescriptorSets N app)],
      thrown := none }

/-! ## Buffers and the staging upload (`application.cpp`, lines 531-568, 1068-1166) -/

/-- `Application::findMemoryType`: the first index `i < memoryTypeCount` with bit `i` of
`requirements.memoryTypeBits` set and `(memoryTypes[i].propertyFlags & properties) ==
properties`; `none` when the loop ends without `return`, where control reaches the end of
the function without a returned value. -/
def findMemoryType (memProperties : VkPhysicalDeviceMemoryProperties)
    (requirements : VkMemoryRequirements) (properties : List VkMemoryPropertyFlagBits) :
    Option Nat :=
  (List.range memProperties.memoryTypeCount).find? fun i =>
    requirements.memoryTypeBits.testBit i
      && properties.all fun p => (memProperties.memoryTypes.getD i []).contains p

/-- What the driver answers during `CreateBuffers`: return codes, the handles written on
success, and the results of the two queries. -/
structure BufferDriver where
  vkCreateBuffer : VkResult
  buffer : Handle
  memoryRequirements : VkMemoryRequirements
  memoryProperties : VkPhysicalDeviceMemoryProperties
  vkAllocateMemory : VkResult
  memory : Handle
  vkBindBufferMemory : VkResult

/-- `Application::CreateBuffers` for particle count `N`.  Only the result of
`vkAllocateMemory` is tested.  The query helpers `CsySmallVk::Query::memoryRequirements`
and `CsySmallVk::Query::physicalDeviceMemoryProperties` (declared in `vkcsy.h`) are taken
to make the Vulkan queries of the same name. -/
def CreateBuffers (drv : BufferDriver) (N : Nat) (app : Application) : Outcome :=
  let create :=
    Call.vkCreateBuffer (packedBufferSize N)
      [VkBufferUsageFlagBits.VK_BUFFER_USAGE_VERTEX_BUFFER_BIT,
       VkBufferUsageFlagBits.VK_BUFFER_USAGE_STORAGE_BUFFER_BIT,
       VkBufferUsageFlagBits.VK_BUFFER_USAGE_TRANSFER_DST_BIT]
  let app :=
    if drv.vkCreateBuffer = VK_SUCCESS then
      { app with packedParticlesBufferHandle := drv.buffer }
    else app
  let requirements := drv.memoryRequirements
  let memoryTypeIndex :=
    findMemoryType drv.memoryProperties requirements
      [VkMemoryPropertyFlagBits.VK_MEMORY_PROPERTY_DEVICE_LOCAL_BIT]
  let calls :=
    [create, Call.vkGetBufferMemoryRequirements app.packedParticlesBufferHandle,
     Call.vkGetPhysicalDeviceMemoryProperties,
     Call.vkAllocateMemory requirements.size memoryTypeIndex]
  if drv.vkAllocateMemory ≠ VK_SUCCESS then
    { app := app, calls := calls, thrown := some "memory allocation failed" }
  else
    let app := { app with packedParticlesMemoryHandle := drv.memory }
    { app := app,
      calls := calls ++
        [Call.vkBindBufferMemory app.packedParticlesBufferHandle
          app.packedParticlesMemoryHandle 0],
      thrown := none }

/-- What the driver answers during `SetInitialParticleData`: return codes, the handles
written on success, and the results of the two queries. -/
structure StagingDriver where
  vkCreateBuffer : VkResult
  stagingBuffer : Handle
  memoryRequirements : VkMemoryRequirements
  memoryProperties : VkPhysicalDeviceMemoryProperties
  vkAllocateMemory : VkResult
  stagingMemory : Handle
  vkBindBufferMemory : VkResult
  vkMapMemory : VkResult
  vkAllocateCommandBuffers : VkResult
  copyCommandBuffer : Handle
  vkBeginCommandBuffer : VkResult
  vkEndCommandBuffer : VkResult
  vkQueueSubmit : VkResult
  vkQueueWaitIdle : VkResult

/-- `Application::SetInitialParticleData` for particle count `N`, as the sequence of
calls it makes; the contents written by `memset` / `memcpy` are `fillMappedMemory`.  The
results of `vkCreateBuffer`, `vkBindBufferMemory` and `vkMapMemory` are discarded.  When
`vkMapMemory` fails `mappedMemory` keeps its initial value `NULL`, and the first of
`std::memset` and `std::memcpy` with a non-zero byte count writes through it and does not
return.  The function leaves the data members unchanged. -/
def SetInitialParticleData (drv : StagingDriver) (N : Nat) (app : Application) : Outcome :=
  let stagingBufferHandle :=
    if drv.vkCreateBuffer = VK_SUCCESS then drv.stagingBuffer else VK_NULL_HANDLE
  let requirements := drv.memoryRequirements
  let memoryTypeIndex :=
    findMemoryType drv.memoryProperties requirements
      [VkMemoryPropertyFlagBits.VK_MEMORY_PROPERTY_HOST_VISIBLE_BIT,
       VkMemoryPropertyFlagBits.VK_MEMORY_PROPERTY_HOST_COHERENT_BIT]
  let allocation :=
    [Call.vkCreateBuffer (packedBufferSize N)
       [VkBufferUsageFlagBits.VK_BUFFER_USAGE_TRANSFER_SRC_BIT],
     Call.vkGetBufferMemoryRequirements stagingBufferHandle,
     Call.vkGetPhysicalDeviceMemoryProperties,
     Call.vkAllocateMemory requirements.size memoryTypeIndex]
  if drv.vkAllocateMemory ≠ VK_SUCCESS then
    { app := app, calls := allocation, thrown := some "memory allocation failed" }
  else
    let stagingBufferMemoryDeviceHandle := drv.stagingMemory
    let filling :=
      [Call.vkBindBufferMemory stagingBufferHandle stagingBufferMemoryDeviceHandle 0,
       Call.vkMapMemory stagingBufferMemoryDeviceHandle 0 requirements.size,
       Call.memset 0 (packedBufferSize N),
       Call.memcpy (positionSsboSize N),
       Call.vkUnmapMemory stagingBufferMemoryDeviceHandle,
       Call.vkAllocateCommandBuffers app.computeCommandPoolHandle 1]
    if drv.vkMapMemory ≠ VK_SUCCESS ∧ 0 < packedBufferSize N then
      { app := app, calls := allocation ++ filling.take 3, thrown := none, crashed := true }
    else if drv.vkMapMemory ≠ VK_SUCCESS ∧ 0 < positionSsboSize N then
      { app := app, calls := allocation ++ filling.take 4, thrown := none, crashed := true }
    else if drv.vkAllocateCommandBuffers ≠ VK_SUCCESS then
      { app := app, calls := allocation ++ filling,
        thrown := some "command buffer creation failed" }
    else
      let copyCommandBufferHandle := drv.copyCommandBuffer
      let begin := [Call.vkBeginCommandBuffer copyCommandBufferHandle]
      if drv.vkBeginCommandBuffer ≠ VK_SUCCESS then
        { app := app, calls := allocation ++ filling ++ begin,
          thrown := some "command buffer begin failed" }
      else
        let recording :=
          [Call.record copyCommandBufferHandle
             (Cmd.vkCmdCopyBuffer stagingBufferHandle app.packedParticlesBufferHandle
               [{ srcOffset := 0, dstOffset := 0, size := requirements.size }]),
           Call.vkEndCommandBuffer copyCommandBufferHandle]
        if drv.vkEndCommandBuffer ≠ VK_SUCCESS then
          { app := app, calls := allocation ++ filling ++ begin ++ recording,
            thrown := some "command buffer end failed" }
        else
          let submit :=
            [Call.vkQueueSubmit app.computeQueueHandle
               [{ pWaitSemaphores := [], pWaitDstStageMask := [],
                  pCommandBuffers := [copyCommandBufferHandle], pSignalSemaphores := [] }]
               VK_NULL_HANDLE]
          if drv.vkQueueSubmit ≠ VK_SUCCESS then
            { app := app, calls := allocation ++ filling ++ begin ++ recording ++ submit,
              thrown := some "command buffer submission failed" }
          else
            let wait := [Call.vkQueueWaitIdle app.computeQueueHandle]
            if drv.vkQueueWaitIdle ≠ VK_SUCCESS then
              { app := app,
                calls := allocation ++ filling ++ begin ++ recording ++ submit ++ wait,
                thrown := some "vkQueueWaitIdle failed" }
            else
              { app := app,
                calls := allocation ++ filling ++ begin ++ recording ++ submit ++ wait ++
                  [Call.vkFreeCommandBuffers app.computeCommandPoolHandle
                     [copyCommandBufferHandle],
                   Call.vkFreeMemory stagingBufferMemoryDeviceHandle,
                   Call.vkDestroyBuffer stagingBufferHandle],
                thrown := none }

/-! ## Device queues (`application.cpp`, lines 298-303) -/

/-- `Application::GetDeviceQueues`: queue 0 of the selected family becomes the graphics
queue, queue 1 the compute queue, queue 2 the presentation queue; `queueOf family index`
is the handle `vkGetDeviceQueue` writes. -/
def GetDeviceQueues (queueOf : Nat → Nat → Handle) (app : Application) : Outcome :=
  let family := app.graphicsPresentationComputeQueueFamilyIndex
  { app := { app with graphicsQueueHandle := queueOf family 0,
                      computeQueueHandle := queueOf family 1,
                      presentationQueueHandle := queueOf family 2 },
    calls := [Call.vkGetDeviceQueue family 0, Call.vkGetDeviceQueue family 1,
              Call.vkGetDeviceQueue family 2],
    thrown := none }

/-! ## Vocabulary for statements about call and command sequences -/

/-- The elements of a list strictly between positions `a` and `b`. -/
def between {α : Type} (l : List α) (a b : Nat) : List α :=
  (l.take b).drop (a + 1)

/-- The positions at which `k` occurs in `ks`, in increasing order. -/
def positionsOf (k : CmdKind) (ks : List CmdKind) : List Nat :=
  (List.range ks.length).filter fun i => ks[i]? = some k

/-- A call that blocks the host until device work has completed. -/
def Call.isWait : Call → Bool
  | Call.vkQueueWaitIdle _ => true
  | Call.vkDeviceWaitIdle => true
  | Call.vkWaitForFences _ => true
  | _ => false

/-- A call that starts, resets, extends or ends the recording of a command buffer. -/
def Call.isRecording : Call → Bool
  | Call.vkBeginCommandBuffer _ => true
  | Call.vkResetCommandBuffer _ => true
  | Call.record _ _ => true
  | Call.vkEndCommandBuffer _ => true
  | _ => false

/-- A queue submission. -/
def Call.isSubmit : Call → Bool
  | Call.vkQueueSubmit _ _ _ => true
  | _ => false

/-- A presentation request. -/
def Call.isPresent : Call → Bool
  | Call.vkQueuePresentKHR _ _ => true
  | _ => false

/-- A driver under which every call of `CreateComputePipelines` succeeds. -/
def PipelineDriver.allSucceed : PipelineDriver where
  vkCreateShaderModule := fun _ => VK_SUCCESS
  vkCreateComputePipelines := fun _ => VK_SUCCESS

/-- A driver under which every call of `CreateComputeCommandBuffer` succeeds and the
allocated command buffer has handle 7. -/
def RecordingDriver.allSucceed : RecordingDriver where
  vkAllocateCommandBuffers := VK_SUCCESS
  allocated := 7
  vkBeginCommandBuffer := VK_SUCCESS
  vkEndCommandBuffer := VK_SUCCESS

/-- A frame in which no key is pressed, `vkQueueSubmit` on the compute queue returns
`VK_ERROR_DEVICE_LOST` (-4) and every other call succeeds. -/
def FrameDriver.computeSubmitFails : FrameDriver where
  keyEvents := []
  computeSubmit := -4
  acquireNextImage := VK_SUCCESS
  acquiredImageIndex := 0
  commandBufferPastEnd := VK_NULL_HANDLE
  graphicsSubmit := VK_SUCCESS
  present := VK_SUCCESS
  waitIdle := VK_SUCCESS

/-- A key event that presses the space key. -/
def spacePress : KeyEvent :=
  { key := GlfwKey.GLFW_KEY_SPACE, action := GlfwAction.GLFW_PRESS }

/-- A key event that presses the escape key. -/
def escapePress : KeyEvent :=
  { key := GlfwKey.GLFW_KEY_ESCAPE, action := GlfwAction.GLFW_PRESS }

/-- A frame in which no key is pressed and every call succeeds. -/
def FrameDriver.allSucceed : FrameDriver where
  keyEvents := []
  computeSubmit := VK_SUCCESS
  acquireNextImage := VK_SUCCESS
  acquiredImageIndex := 0
  commandBufferPastEnd := VK_NULL_HANDLE
  graphicsSubmit := VK_SUCCESS
  present := VK_SUCCESS
  waitIdle := VK_SUCCESS

/-- A call that destroys or frees a Vulkan object. -/
def Call.isDestroy : Call → Bool
  | Call.vkFreeCommandBuffers _ _ => true
  | Call.vkFreeMemory _ => true
  | Call.vkDestroyBuffer _ => true
  | Call.vkDestroySwapchainKHR _ => true
  | Call.vkDestroySurfaceKHR _ => true
  | Call.vkDestroyDevice _ => true
  | Call.vkDestroyInstance _ => true
  | _ => false

/-- Byte offset `x` of a vertex buffer lies in one of the elements fetched by a draw of
`vertexCount` vertices from `firstVertex` on: vertex `v` reads `formatSize` bytes from
offset `bufferOffset + v * stride + attributeOffset`. -/
def vertexBytes (bufferOffset stride attributeOffset formatSize firstVertex vertexCount
    x : Nat) : Prop :=
  ∃ v : Nat, firstVertex ≤ v ∧ v < firstVertex + vertexCount ∧
    bufferOffset + v * stride + attributeOffset ≤ x ∧
    x < bufferOffset + v * stride + attributeOffset + formatSize

/-- Byte offset `x` of buffer `buffer` is read as vertex input by the commands `cmds`
drawn with pipeline `pipeline`: some attribute of the pipeline reads it, through the
binding of that attribute, from `buffer` bound by a `vkCmdBindVertexBuffers` of `cmds`,
for some vertex of a `vkCmdDraw` of `cmds`. -/
def readsAsVertexInput (pipeline : VkPipeline) (cmds : List Cmd) (buffer : Handle)
    (x : Nat) : Prop :=
  ∃ (vs fs : String) (bindings : List VkVertexInputBindingDescription)
    (attributes : List VkVertexInputAttributeDescription),
    pipeline = VkPipeline.graphics vs fs bindings attributes ∧
    ∃ (firstBinding : Nat) (buffers : List Handle) (offsets : List Nat),
      Cmd.vkCmdBindVertexBuffers firstBinding buffers offsets ∈ cmds ∧
      ∃ vertexCount instanceCount firstVertex firstInstance : Nat,
        Cmd.vkCmdDraw vertexCount instanceCount firstVertex firstInstance ∈ cmds ∧
        ∃ b ∈ bindings, ∃ a ∈ attributes,
          a.binding = b.binding ∧ firstBinding ≤ b.binding ∧
          buffers[b.binding - firstBinding]? = some buffer ∧
          ∃ o : Nat, offsets[b.binding - firstBinding]? = some o ∧
            vertexBytes o b.stride a.offset a.format.size firstVertex vertexCount x

/-- A driver under which every call of `CreateGraphicsPipeline` succeeds. -/
def GraphicsPipelineDriver.allSucceed : GraphicsPipelineDriver where
  vkCreateShaderModule := fun _ => VK_SUCCESS
  vkCreateGraphicsPipelines := VK_SUCCESS

/-- A driver under which `vkAllocateDescriptorSets` succeeds with handle 9. -/
def DescriptorDriver.allSucceed : DescriptorDriver where
  vkAllocateDescriptorSets := VK_SUCCESS
  allocated := 9

/-- A device with two memory types, 0 device-local and 1 host-visible and host-coherent. -/
def twoMemoryTypes : VkPhysicalDeviceMemoryProperties where
  memoryTypeCount := 2
  memoryTypes :=
    [[VkMemoryPropertyFlagBits.VK_MEMORY_PROPERTY_DEVICE_LOCAL_BIT],
     [VkMemoryPropertyFlagBits.VK_MEMORY_PROPERTY_HOST_VISIBLE_BIT,
      VkMemoryPropertyFlagBits.VK_MEMORY_PROPERTY_HOST_COHERENT_BIT]]

/-- A driver under which every call of `CreateBuffers` succeeds: buffer handle 3, memory
handle 4, requirements of 640000 bytes satisfiable by both memory types. -/
def BufferDriver.allSucceed : BufferDriver where
  vkCreateBuffer := VK_SUCCESS
  buffer := 3
  memoryRequirements := { size := 640000, alignment := 256, memoryTypeBits := 3 }
  memoryProperties := twoMemoryTypes
  vkAllocateMemory := VK_SUCCESS
  memory := 4
  vkBindBufferMemory := VK_SUCCESS

/-- A driver under which every call of `SetInitialParticleData` succeeds: staging buffer
handle 5, staging memory handle 6, copy command buffer handle 8, requirements of 640000
bytes satisfiable by both memory types. -/
def StagingDriver.allSucceed : StagingDriver where
  vkCreateBuffer := VK_SUCCESS
  stagingBuffer := 5
  memoryRequirements := { size := 640000, alignment := 256, memoryTypeBits := 3 }
  memoryProperties := twoMemoryTypes
  vkAllocateMemory := VK_SUCCESS
  stagingMemory := 6
  vkBindBufferMemory := VK_SUCCESS
  vkMapMemory := VK_SUCCESS
  vkAllocateCommandBuffers := VK_SUCCESS
  copyCommandBuffer := 8
  vkBeginCommandBuffer := VK_SUCCESS
  vkEndCommandBuffer := VK_SUCCESS
  vkQueueSubmit := VK_SUCCESS
  vkQueueWaitIdle := VK_SUCCESS

/-- What an idle-wait at the end of a call sequence covers: the queues waited idle, the
semaphores awaited by covered queue work, and the queue work that is not covered. -/
structure Coverage where
  deviceWaited : Bool
  waitedQueues : List Handle
  awaitedSemaphores : List Handle
  uncovered : List Call
deriving DecidableEq

/-- Adds the call `c` in front of calls whose coverage is `later`.  A present or a
submission is covered when the device or its queue is waited idle later, or (for a
submission) when it signals a semaphore awaited by later covered work; covered work hands
on the semaphores it waits for. -/
def coverageStep (c : Call) (later : Coverage) : Coverage :=
  match c with
  | Call.vkDeviceWaitIdle => { later with deviceWaited := true }
  | Call.vkQueueWaitIdle q => { later with waitedQueues := q :: later.waitedQueues }
  | Call.vkQueuePresentKHR q info =>
      if later.deviceWaited || later.waitedQueues.contains q then
        { later with awaitedSemaphores := info.pWaitSemaphores ++ later.awaitedSemaphores }
      else { later with uncovered := c :: later.uncovered }
  | Call.vkQueueSubmit q infos _ =>
      if later.deviceWaited || later.waitedQueues.contains q
          || infos.any (fun s =>
              s.pSignalSemaphores.any fun sem => later.awaitedSemaphores.contains sem) then
        { later with awaitedSemaphores :=
            (infos.map fun s => s.pWaitSemaphores).flatten ++ later.awaitedSemaphores }
      else { later with uncovered := c :: later.uncovered }
  | _ => later

/-- The coverage of a call sequence, computed from its end. -/
def coverage (calls : List Call) : Coverage :=
  calls.foldr coverageStep
    { deviceWaited := false, waitedQueues := [], awaitedSemaphores := [], uncovered := [] }

/-- A driver under which every call of `SetInitialParticleData` succeeds and the memory
requirements of the 640000-byte staging buffer are reported as 643072 bytes (640000
rounded up to a multiple of the alignment 4096). -/
def StagingDriver.paddedRequirements : StagingDriver :=
  { StagingDriver.allSucceed with
    memoryRequirements := { size := 643072, alignment := 4096, memoryTypeBits := 3 } }

/-- A device whose only memory type is device-local. -/
def deviceLocalOnly : VkPhysicalDeviceMemoryProperties where
  memoryTypeCount := 1
  memoryTypes := [[VkMemoryPropertyFlagBits.VK_MEMORY_PROPERTY_DEVICE_LOCAL_BIT]]

/-- A driver under which `vkAllocateCommandBuffers` hands out the graphics command buffers
31, 32, 33 and every `vkEndCommandBuffer` succeeds. -/
def GraphicsRecordingDriver.allSucceed : GraphicsRecordingDriver where
  vkAllocateCommandBuffers := VK_SUCCESS
  allocated := [31, 32, 33]
  vkEndCommandBuffer := fun _ => VK_SUCCESS

/-- The object as constructed, with the framebuffers 21, 22, 23 of a swapchain of three
images. -/
def Application.withThreeFramebuffers : Application :=
  { Application.constructed with swapchainFrameBufferHandles := [21, 22, 23] }

end SPH

/-! # Theorems -/

namespace SPH

/-! ## Packed buffer layout -/

theorem ssbo_sizes_of_fit (N : Nat) (hfit : 32 * N < 2 ^ 64) :
    positionSsboSize N = 8 * N ∧ velocitySsboSize N = 8 * N ∧ forceSsboSize N = 8 * N ∧
    densitySsboSize N = 4 * N ∧ pressureSsboSize N = 4 * N := by
  unfold positionSsboSize velocitySsboSize forceSsboSize densitySsboSize pressureSsboSize
    sizeof_vec2 sizeof_float
  refine ⟨?_, ?_, ?_, ?_, ?_⟩ <;> omega

theorem ssbo_offsets_of_fit (N : Nat) (hfit : 32 * N < 2 ^ 64) :
    velocitySsboOffset N = 8 * N ∧ forceSsboOffset N = 16 * N ∧
    densitySsboOffset N = 24 * N ∧ pressureSsboOffset N = 28 * N ∧
    packedBufferSize N = 32 * N := by
  obtain ⟨hp, hv, hf, hd, hq⟩ := ssbo_sizes_of_fit N hfit
  have h1 : velocitySsboOffset N = 8 * N := by unfold velocitySsboOffset; exact hp
  have h2 : forceSsboOffset N = 16 * N := by
    unfold forceSsboOffset; rw [h1, hv]; omega
  have h3 : densitySsboOffset N = 24 * N := by
    unfold densitySsboOffset; rw [h2, hf]; omega
  have h4 : pressureSsboOffset N = 28 * N := by
    unfold pressureSsboOffset; rw [h3, hd]; omega
  refine ⟨h1, h2, h3, h4, ?_⟩
  unfold packedBufferSize
  rw [hp, hv, hf, hd, hq]
  have e1 : (8 * N + 8 * N) % 2 ^ 64 = 16 * N := by omega
  rw [e1]
  have e2 : (16 * N + 8 * N) % 2 ^ 64 = 24 * N := by omega
  rw [e2]
  have e3 : (24 * N + 4 * N) % 2 ^ 64 = 28 * N := by omega
  rw [e3]
  omega

/-- For every particle count `N`, in the `uint64_t` arithmetic of the members (sums and
products reduced modulo `2 ^ 64`): the sizes are 8, 8, 8, 4, 4 bytes per particle, the
position offset is 0, every later offset is the sum of the sizes declared before it, and
`packedBufferSize` is the sum of the five sizes. -/
theorem layout_sums_modulo_word (N : Nat) :
    (positionSsboSize N = (8 * N) % 2 ^ 64 ∧ velocitySsboSize N = (8 * N) % 2 ^ 64 ∧
      forceSsboSize N = (8 * N) % 2 ^ 64 ∧ densitySsboSize N = (4 * N) % 2 ^ 64 ∧
      pressureSsboSize N = (4 * N) % 2 ^ 64) ∧
    positionSsboOffset = 0 ∧
    velocitySsboOffset N = positionSsboSize N ∧
    forceSsboOffset N = (positionSsboSize N + velocitySsboSize N) % 2 ^ 64 ∧
    densitySsboOffset N =
      (positionSsboSize N + velocitySsboSize N + forceSsboSize N) % 2 ^ 64 ∧
    pressureSsboOffset N =
      (positionSsboSize N + velocitySsboSize N + forceSsboSize N + densitySsboSize N)
        % 2 ^ 64 ∧
    packedBufferSize N =
      (positionSsboSize N + velocitySsboSize N + forceSsboSize N + densitySsboSize N
        + pressureSsboSize N) % 2 ^ 64 := by
  refine ⟨⟨rfl, rfl, rfl, rfl, rfl⟩, rfl, rfl, rfl, ?_, ?_, ?_⟩
  · unfold densitySsboOffset forceSsboOffset velocitySsboOffset
    omega
  · unfold pressureSsboOffset densitySsboOffset forceSsboOffset velocitySsboOffset
    omega
  · unfold packedBufferSize
    omega

/-- C1 (as stated) fails: for `N = 2 ^ 59` the five sizes are `2 ^ 62`, `2 ^ 62`,
`2 ^ 62`, `2 ^ 61`, `2 ^ 61`, whose sum is `2 ^ 64`, while the `uint64_t` member
`packedBufferSize` is 0. -/
theorem layout_total_is_not_sum_at_wrap :
    positionSsboSize (2 ^ 59) + velocitySsboSize (2 ^ 59) + forceSsboSize (2 ^ 59)
      + densitySsboSize (2 ^ 59) + pressureSsboSize (2 ^ 59) = 2 ^ 64 ∧
    packedBufferSize (2 ^ 59) = 0 ∧
    ¬ (packedBufferSize (2 ^ 59) =
        positionSsboSize (2 ^ 59) + velocitySsboSize (2 ^ 59) + forceSsboSize (2 ^ 59)
          + densitySsboSize (2 ^ 59) + pressureSsboSize (2 ^ 59)) := by
  decide

/-- C1 (amended): for every particle count `N` whose packed size `32 * N` fits in 64 bits,
the sizes are `8 * N`, `8 * N`, `8 * N`, `4 * N`, `4 * N`, the position offset is 0, every
later offset is the sum of the sizes of the arrays declared before it, and
`packedBufferSize` is the sum of the five sizes; for `N = 20000` the offsets are 0,
160000, 320000, 480000, 560000 and the total is 640000. -/
theorem layout_offsets_are_cumulative_sizes (N : Nat) (hfit : 32 * N < 2 ^ 64) :
    (positionSsboSize N = 8 * N ∧ velocitySsboSize N = 8 * N ∧ forceSsboSize N = 8 * N ∧
      densitySsboSize N = 4 * N ∧ pressureSsboSize N = 4 * N) ∧
    positionSsboOffset = 0 ∧
    velocitySsboOffset N = positionSsboSize N ∧
    forceSsboOffset N = positionSsboSize N + velocitySsboSize N ∧
    densitySsboOffset N = positionSsboSize N + velocitySsboSize N + forceSsboSize N ∧
    pressureSsboOffset N =
      positionSsboSize N + velocitySsboSize N + forceSsboSize N + densitySsboSize N ∧
    packedBufferSize N =
      positionSsboSize N + velocitySsboSize N + forceSsboSize N + densitySsboSize N
        + pressureSsboSize N ∧
    ssboRanges N = [(0, 8 * N), (8 * N, 8 * N), (16 * N, 8 * N), (24 * N, 4 * N),
      (28 * N, 4 * N)] ∧
    (ssboRanges 20000 =
        [(0, 160000), (160000, 160000), (320000, 160000), (480000, 80000), (560000, 80000)] ∧
      packedBufferSize 20000 = 640000) := by
  obtain ⟨hp, hv, hf, hd, hq⟩ := ssbo_sizes_of_fit N hfit
  obtain ⟨h1, h2, h3, h4, h5⟩ := ssbo_offsets_of_fit N hfit
  refine ⟨⟨hp, hv, hf, hd, hq⟩, rfl, rfl, ?_, ?_, ?_, ?_, ?_, ?_⟩
  · rw [h2, hp, hv]; omega
  · rw [h3, hp, hv, hf]; omega
  · rw [h4, hp, hv, hf, hd]; omega
  · rw [h5, hp, hv, hf, hd, hq]; omega
  · unfold ssboRanges positionSsboOffset
    rw [h1, h2, h3, h4, hp, hv, hf, hd, hq]
  · constructor <;> decide

/-- Witness for C1 (amended): the configured particle count, whose packed size fits in 64
bits. -/
theorem layout_offsets_are_cumulative_sizes_witness :
    32 * 20000 < 2 ^ 64 ∧
    pressureSsboOffset 20000 =
      positionSsboSize 20000 + velocitySsboSize 20000 + forceSsboSize 20000
        + densitySsboSize 20000 ∧
    packedBufferSize 20000 =
      positionSsboSize 20000 + velocitySsboSize 20000 + forceSsboSize 20000
        + densitySsboSize 20000 + pressureSsboSize 20000 :=
  ⟨by decide,
    (layout_offsets_are_cumulative_sizes 20000 (by decide)).2.2.2.2.2.1,
    (layout_offsets_are_cumulative_sizes 20000 (by decide)).2.2.2.2.2.2.1⟩

/-- C2 (as stated) fails: for `N = 2 ^ 61 > 0` the 64-bit product `8 * N` wraps to 0, so
the velocity offset is not greater than the position offset. -/
theorem layout_offsets_not_increasing_at_wrap :
    0 < 2 ^ 61 ∧ 2 ^ 61 < 2 ^ 64 ∧ ¬ (positionSsboOffset < velocitySsboOffset (2 ^ 61)) := by
  decide

/-- C2 (amended): for every `N > 0` whose packed size `32 * N` fits in 64 bits, the five
offsets are strictly increasing, no byte belongs to two of the five ranges, and every
range lies inside `[0, packedBufferSize)`. -/
theorem layout_ranges_increasing_disjoint_inside (N : Nat) (hpos : 0 < N)
    (hfit : 32 * N < 2 ^ 64) :
    List.Pairwise (fun a b => a.1 < b.1) (ssboRanges N) ∧
    List.Pairwise
      (fun a b => ∀ x : Nat, ¬ ((a.1 ≤ x ∧ x < a.1 + a.2) ∧ (b.1 ≤ x ∧ x < b.1 + b.2)))
      (ssboRanges N) ∧
    (∀ r ∈ ssboRanges N, r.1 + r.2 ≤ packedBufferSize N) := by
  obtain ⟨hp, hv, hf, hd, hq⟩ := ssbo_sizes_of_fit N hfit
  obtain ⟨h1, h2, h3, h4, h5⟩ := ssbo_offsets_of_fit N hfit
  unfold ssboRanges positionSsboOffset
  rw [hp, hv, hf, hd, hq, h1, h2, h3, h4, h5]
  refine ⟨?_, ?_, ?_⟩
  · simp only [List.pairwise_cons, List.mem_cons, List.mem_singleton, List.not_mem_nil,
      forall_eq_or_imp, forall_eq, List.Pairwise.nil, and_true, false_implies, implies_true]
    omega
  · simp only [List.pairwise_cons, List.mem_cons, List.mem_singleton, List.not_mem_nil,
      forall_eq_or_imp, forall_eq, List.Pairwise.nil, and_true, false_implies, implies_true]
    refine ⟨⟨?_, ?_, ?_, ?_⟩, ⟨?_, ?_, ?_⟩, ⟨?_, ?_⟩, ?_⟩ <;> intro x <;> omega
  · simp only [List.mem_cons, List.mem_singleton, List.not_mem_nil, or_false,
      forall_eq_or_imp, forall_eq]
    omega

/-- Witness for C2 (amended) at the configured particle count. -/
theorem layout_ranges_increasing_disjoint_inside_witness :
    0 < 20000 ∧ 32 * 20000 < 2 ^ 64 ∧
    List.Pairwise (fun a b => a.1 < b.1) (ssboRanges 20000) ∧
    List.Pairwise
      (fun a b => ∀ x : Nat, ¬ ((a.1 ≤ x ∧ x < a.1 + a.2) ∧ (b.1 ≤ x ∧ x < b.1 + b.2)))
      (ssboRanges 20000) ∧
    (∀ r ∈ ssboRanges 20000, r.1 + r.2 ≤ packedBufferSize 20000) :=
  ⟨by decide, by decide,
    layout_ranges_increasing_disjoint_inside 20000 (by decide) (by decide)⟩

/-! ## Dispatch group count -/

/-- When `N + G - 1` is representable no `int` operation of the macro changes the value:
the intermediate `N + G` may be `INT_MAX + 1`, which the subtraction brings back. -/
theorem work_groups_eq_ediv (N G : Int) (hN : 0 ≤ N) (hG : 0 < G)
    (hfit : N + G - 1 ≤ INT_MAX) :
    SPH_NUM_WORK_GROUPS N G = (N + G - 1) / G := by
  unfold INT_MAX at hfit
  have hinner : wrapInt (wrapInt (N + G) - 1) = N + G - 1 := by
    unfold wrapInt
    omega
  have hq : Int.tdiv (N + G - 1) G = (N + G - 1) / G :=
    Int.tdiv_eq_ediv (by omega) (by omega)
  have h0 : 0 ≤ (N + G - 1) / G := Int.ediv_nonneg (by omega) (by omega)
  have h1 : (N + G - 1) / G ≤ N + G - 1 := Int.ediv_le_self _ (by omega)
  unfold SPH_NUM_WORK_GROUPS
  rw [hinner, hq]
  unfold wrapInt
  omega

theorem work_groups_bounds (N G : Int) (hN : 0 ≤ N) (hG : 0 < G)
    (hfit : N + G - 1 ≤ INT_MAX) :
    N ≤ SPH_NUM_WORK_GROUPS N G * G ∧ SPH_NUM_WORK_GROUPS N G * G < N + G := by
  rw [work_groups_eq_ediv N G hN hG hfit]
  have h1 := Int.emod_add_ediv (N + G - 1) G
  have h2 := Int.emod_nonneg (N + G - 1) (ne_of_gt hG)
  have h3 := Int.emod_lt_of_pos (N + G - 1) hG
  have h4 : G * ((N + G - 1) / G) = (N + G - 1) / G * G := Int.mul_comm _ _
  constructor <;> omega

/-- C3 (as stated) fails: for `N = 2147483647 >= 0` and `G = 128 > 0` the `int` sum
`N + G` overflows and the macro evaluates to -16777215, which is not the ceiling 16777216
of `N / G` and covers no particle. -/
theorem work_groups_wrong_at_int_overflow :
    (0 : Int) ≤ 2147483647 ∧ (0 : Int) < 128 ∧ (2147483647 : Int) ≤ INT_MAX ∧
    SPH_NUM_WORK_GROUPS 2147483647 128 = -16777215 ∧
    (2147483647 : Int) ≤ 16777216 * 128 ∧ ¬ ((2147483647 : Int) ≤ 16777215 * 128) ∧
    ¬ ((2147483647 : Int) ≤ SPH_NUM_WORK_GROUPS 2147483647 128 * 128) := by
  decide

/-- C3 (amended): for every `N >= 0` and group size `G > 0` with `N + G - 1 <= INT_MAX`,
`(N + G - 1) / G` is the ceiling of `N / G`: it covers all `N` particles, no smaller
group count does, fewer than `G` invocations are spare, and `N = 20000`, `G = 128` gives
157. -/
theorem work_groups_is_ceil (N G : Int) (hN : 0 ≤ N) (hG : 0 < G)
    (hfit : N + G - 1 ≤ INT_MAX) :
    SPH_NUM_WORK_GROUPS N G = ⌈(N : ℚ) / (G : ℚ)⌉ ∧
    N ≤ SPH_NUM_WORK_GROUPS N G * G ∧
    (∀ g : Int, N ≤ g * G → SPH_NUM_WORK_GROUPS N G ≤ g) ∧
    SPH_NUM_WORK_GROUPS N G * G - N < G ∧
    SPH_NUM_WORK_GROUPS (SPH_NUM_PARTICLES : Int) (SPH_WORK_GROUP_SIZE : Int) = 157 := by
  obtain ⟨hcover, hspare⟩ := work_groups_bounds N G hN hG hfit
  have hGq : (0 : ℚ) < (G : ℚ) := by exact_mod_cast hG
  refine ⟨?_, hcover, ?_, by omega, by decide⟩
  · symm
    rw [Int.ceil_eq_iff]
    constructor
    · rw [lt_div_iff₀ hGq]
      have : ((SPH_NUM_WORK_GROUPS N G * G - G : Int) : ℚ) < (N : ℚ) := by
        exact_mod_cast (by omega : SPH_NUM_WORK_GROUPS N G * G - G < N)
      push_cast at this
      linarith
    · rw [div_le_iff₀ hGq]
      exact_mod_cast hcover
  · intro g hg
    by_contra hlt
    have hle : g + 1 ≤ SPH_NUM_WORK_GROUPS N G := by omega
    have hmul : (g + 1) * G ≤ SPH_NUM_WORK_GROUPS N G * G :=
      Int.mul_le_mul_of_nonneg_right hle (le_of_lt hG)
    have hexp : (g + 1) * G = g * G + G := by ring
    omega

/-- Witness for C3 (amended) at the configured particle count and group size. -/
theorem work_groups_is_ceil_witness :
    (0 : Int) ≤ 20000 ∧ (0 : Int) < 128 ∧ (20000 : Int) + 128 - 1 ≤ INT_MAX ∧
    SPH_NUM_WORK_GROUPS 20000 128 = ⌈((20000 : Int) : ℚ) / ((128 : Int) : ℚ)⌉ ∧
    (20000 : Int) ≤ SPH_NUM_WORK_GROUPS 20000 128 * 128 ∧
    (∀ g : Int, 20000 ≤ g * 128 → SPH_NUM_WORK_GROUPS 20000 128 ≤ g) ∧
    SPH_NUM_WORK_GROUPS 20000 128 * 128 - 20000 < 128 ∧
    SPH_NUM_WORK_GROUPS (SPH_NUM_PARTICLES : Int) (SPH_WORK_GROUP_SIZE : Int) = 157 :=
  ⟨by decide, by decide, by decide,
    work_groups_is_ceil 20000 128 (by decide) (by decide) (by decide)⟩

/-! ## Initial particle positions -/

theorem CreateComputeCommandBuffer_of_success (drv : RecordingDriver) (app : Application)
    (halloc : drv.vkAllocateCommandBuffers = VK_SUCCESS)
    (hbegin : drv.vkBeginCommandBuffer = VK_SUCCESS) :
    (CreateComputeCommandBuffer drv app).thrown = none ∧
    (CreateComputeCommandBuffer drv app).app
      = { app with computeCommandBufferHandle := drv.allocated } ∧
    recordedInto (CreateComputeCommandBuffer drv app).app.computeCommandBufferHandle
        (CreateComputeCommandBuffer drv app).calls
      = computeCommands { app with computeCommandBufferHandle := drv.allocated } := by
  simp [CreateComputeCommandBuffer, halloc, hbegin, recordedInto, computeCommands]

theorem computeCommands_kinds (app : Application) :
    (computeCommands app).map Cmd.kind =
      [CmdKind.bindDescriptorSets, CmdKind.bindPipeline, CmdKind.dispatch,
       CmdKind.pipelineBarrier, CmdKind.bindPipeline, CmdKind.dispatch,
       CmdKind.pipelineBarrier, CmdKind.bindPipeline, CmdKind.dispatch,
       CmdKind.pipelineBarrier] := rfl

theorem dispatch_positions :
    ∀ i : Nat,
      [CmdKind.bindDescriptorSets, CmdKind.bindPipeline, CmdKind.dispatch,
       CmdKind.pipelineBarrier, CmdKind.bindPipeline, CmdKind.dispatch,
       CmdKind.pipelineBarrier, CmdKind.bindPipeline, CmdKind.dispatch,
       CmdKind.pipelineBarrier][i]? = some CmdKind.dispatch →
      i = 2 ∨ i = 5 ∨ i = 8 := by
  intro i hi
  have hlt : i < 10 := by
    by_contra hge
    rw [List.getElem?_eq_none (by simp; omega)] at hi
    exact Option.noConfusion hi
  interval_cases i <;> simp at hi ⊢

/-- C6: when `CreateComputeCommandBuffer` returns, the recorded sequence holds exactly
three dispatches (positions 2, 5, 8), exactly one barrier strictly between the first and
the second and between the second and the third, hence exactly two between the first and
the last, and between any two dispatches there is a barrier. -/
theorem compute_sequence_three_dispatches_two_barriers (drv : RecordingDriver)
    (app : Application) (halloc : drv.vkAllocateCommandBuffers = VK_SUCCESS)
    (hbegin : drv.vkBeginCommandBuffer = VK_SUCCESS) :
    (CreateComputeCommandBuffer drv app).thrown = none ∧
    (List.map Cmd.kind
      (recordedInto (CreateComputeCommandBuffer drv app).app.computeCommandBufferHandle
        (CreateComputeCommandBuffer drv app).calls)).count CmdKind.dispatch = 3 ∧
    positionsOf CmdKind.dispatch (List.map Cmd.kind
      (recordedInto (CreateComputeCommandBuffer drv app).app.computeCommandBufferHandle
        (CreateComputeCommandBuffer drv app).calls)) = [2, 5, 8] ∧
    (between (List.map Cmd.kind
      (recordedInto (CreateComputeCommandBuffer drv app).app.computeCommandBufferHandle
        (CreateComputeCommandBuffer drv app).calls)) 2 5).count CmdKind.pipelineBarrier = 1 ∧
    (between (List.map Cmd.kind
      (recordedInto (CreateComputeCommandBuffer drv app).app.computeCommandBufferHandle
        (CreateComputeCommandBuffer drv app).calls)) 5 8).count CmdKind.pipelineBarrier = 1 ∧
    (between (List.map Cmd.kind
      (recordedInto (CreateComputeCommandBuffer drv app).app.computeCommandBufferHandle
        (CreateComputeCommandBuffer drv app).calls)) 2 8).count CmdKind.pipelineBarrier = 2 ∧
    (∀ i j : Nat, i < j →
      (List.map Cmd.kind
        (recordedInto (CreateComputeCommandBuffer drv app).app.computeCommandBufferHandle
          (CreateComputeCommandBuffer drv app).calls))[i]? = some CmdKind.dispatch →
      (List.map Cmd.kind
        (recordedInto (CreateComputeCommandBuffer drv app).app.computeCommandBufferHandle
          (CreateComputeCommandBuffer drv app).calls))[j]? = some CmdKind.dispatch →
      ∃ k : Nat, i < k ∧ k < j ∧
        (List.map Cmd.kind
          (recordedInto (CreateComputeCommandBuffer drv app).app.computeCommandBufferHandle
            (CreateComputeCommandBuffer drv app).calls))[k]? = some CmdKind.pipelineBarrier) := by
  obtain ⟨hret, _, hrec⟩ := CreateComputeCommandBuffer_of_success drv app halloc hbegin
  rw [hrec, computeCommands_kinds]
  refine ⟨hret, by decide, by decide, by decide, by decide, by decide, ?_⟩
  intro i j hij hi hj
  have hpos := dispatch_positions
  rcases hpos i hi with rfl | rfl | rfl <;> rcases hpos j hj with rfl | rfl | rfl
  all_goals first
    | omega
    | exact ⟨3, by omega, by omega, rfl⟩
    | exact ⟨6, by omega, by omega, rfl⟩

/-- Witness for C6: the object as constructed and a driver whose calls all succeed. -/
theorem compute_sequence_three_dispatches_two_barriers_witness :
    RecordingDriver.allSucceed.vkAllocateCommandBuffers = VK_SUCCESS ∧
    RecordingDriver.allSucceed.vkBeginCommandBuffer = VK_SUCCESS ∧
    (List.map Cmd.kind
      (recordedInto
        (CreateComputeCommandBuffer RecordingDriver.allSucceed
          Application.constructed).app.computeCommandBufferHandle
        (CreateComputeCommandBuffer RecordingDriver.allSucceed
          Application.constructed).calls)).count CmdKind.dispatch = 3 :=
  ⟨rfl, rfl,
    (compute_sequence_three_dispatches_two_barriers RecordingDriver.allSucceed
      Application.constructed rfl rfl).2.1⟩

theorem CreateComputePipelines_of_success (drv : PipelineDriver) (app : Application)
    (hmodule : ∀ k : Nat, drv.vkCreateShaderModule k = VK_SUCCESS)
    (hpipeline : ∀ k : Nat, drv.vkCreateComputePipelines k = VK_SUCCESS) :
    (CreateComputePipelines drv app).thrown = none ∧
    (CreateComputePipelines drv app).app.computePipelineHandles =
      (VkPipeline.compute (MU_SHADER_PATH ++ "compute_density_pressure.comp.spv") "main"
          app.computePipelineLayoutHandle,
       VkPipeline.compute (MU_SHADER_PATH ++ "compute_force.comp.spv") "main"
          app.computePipelineLayoutHandle,
       VkPipeline.compute (MU_SHADER_PATH ++ "integrate.comp.spv") "main"
          app.computePipelineLayoutHandle) := by
  simp [CreateComputePipelines, createComputePipelineBlock, setComputePipelineHandle,
    Outcome.andThen, hmodule, hpipeline]

/-- C7: with compute pipelines 0, 1, 2 created from the density/pressure, force and
integrate shaders, the recorded sequence binds the descriptor set exactly once, at
position 0 before the first dispatch, and each of its three dispatches is preceded by the
bind of pipeline 0, 1, 2 respectively and dispatches `(SPH_NUM_WORK_GROUPS, 1, 1)`. -/
theorem compute_sequence_binds_in_stage_order (pdrv : PipelineDriver)
    (rdrv : RecordingDriver) (app0 app : Application)
    (hmodule : ∀ k : Nat, pdrv.vkCreateShaderModule k = VK_SUCCESS)
    (hpipeline : ∀ k : Nat, pdrv.vkCreateComputePipelines k = VK_SUCCESS)
    (hsame : app.computePipelineHandles
      = (CreateComputePipelines pdrv app0).app.computePipelineHandles)
    (halloc : rdrv.vkAllocateCommandBuffers = VK_SUCCESS)
    (hbegin : rdrv.vkBeginCommandBuffer = VK_SUCCESS) :
    recordedInto (CreateComputeCommandBuffer rdrv app).app.computeCommandBufferHandle
        (CreateComputeCommandBuffer rdrv app).calls =
      [ Cmd.vkCmdBindDescriptorSets VkPipelineBindPoint.VK_PIPELINE_BIND_POINT_COMPUTE
          app.computePipelineLayoutHandle 0 [app.computeDescriptorSetHandle],
        Cmd.vkCmdBindPipeline VkPipelineBindPoint.VK_PIPELINE_BIND_POINT_COMPUTE
          (VkPipeline.compute (MU_SHADER_PATH ++ "compute_density_pressure.comp.spv") "main"
            app0.computePipelineLayoutHandle),
        Cmd.vkCmdDispatch
          (SPH_NUM_WORK_GROUPS (SPH_NUM_PARTICLES : Int) (SPH_WORK_GROUP_SIZE : Int)) 1 1,
        Cmd.vkCmdPipelineBarrier
          [VkPipelineStageFlagBits.VK_PIPELINE_STAGE_COMPUTE_SHADER_BIT]
          [VkPipelineStageFlagBits.VK_PIPELINE_STAGE_COMPUTE_SHADER_BIT] 0 0 0,
        Cmd.vkCmdBindPipeline VkPipelineBindPoint.VK_PIPELINE_BIND_POINT_COMPUTE
          (VkPipeline.compute (MU_SHADER_PATH ++ "compute_force.comp.spv") "main"
            app0.computePipelineLayoutHandle),
        Cmd.vkCmdDispatch
          (SPH_NUM_WORK_GROUPS (SPH_NUM_PARTICLES : Int) (SPH_WORK_GROUP_SIZE : Int)) 1 1,
        Cmd.vkCmdPipelineBarrier
          [VkPipelineStageFlagBits.VK_PIPELINE_STAGE_COMPUTE_SHADER_BIT]
          [VkPipelineStageFlagBits.VK_PIPELINE_STAGE_COMPUTE_SHADER_BIT] 0 0 0,
        Cmd.vkCmdBindPipeline VkPipelineBindPoint.VK_PIPELINE_BIND_POINT_COMPUTE
          (VkPipeline.compute (MU_SHADER_PATH ++ "integrate.comp.spv") "main"
            app0.computePipelineLayoutHandle),
        Cmd.vkCmdDispatch
          (SPH_NUM_WORK_GROUPS (SPH_NUM_PARTICLES : Int) (SPH_WORK_GROUP_SIZE : Int)) 1 1,
        Cmd.vkCmdPipelineBarrier
          [VkPipelineStageFlagBits.VK_PIPELINE_STAGE_COMPUTE_SHADER_BIT]
          [VkPipelineStageFlagBits.VK_PIPELINE_STAGE_COMPUTE_SHADER_BIT] 0 0 0 ] ∧
    (List.map Cmd.kind
      (recordedInto (CreateComputeCommandBuffer rdrv app).app.computeCommandBufferHandle
        (CreateComputeCommandBuffer rdrv app).calls)).count CmdKind.bindDescriptorSets = 1 ∧
    positionsOf CmdKind.bindDescriptorSets (List.map Cmd.kind
      (recordedInto (CreateComputeCommandBuffer rdrv app).app.computeCommandBufferHandle
        (CreateComputeCommandBuffer rdrv app).calls)) = [0] ∧
    positionsOf CmdKind.bindPipeline (List.map Cmd.kind
      (recordedInto (CreateComputeCommandBuffer rdrv app).app.computeCommandBufferHandle
        (CreateComputeCommandBuffer rdrv app).calls)) = [1, 4, 7] ∧
    positionsOf CmdKind.dispatch (List.map Cmd.kind
      (recordedInto (CreateComputeCommandBuffer rdrv app).app.computeCommandBufferHandle
        (CreateComputeCommandBuffer rdrv app).calls)) = [2, 5, 8] := by
  obtain ⟨_, hcreated⟩ := CreateComputePipelines_of_success pdrv app0 hmodule hpipeline
  obtain ⟨_, _, hrec⟩ := CreateComputeCommandBuffer_of_success rdrv app halloc hbegin
  rw [hcreated] at hsame
  rw [hrec]
  refine ⟨?_, ?_, ?_, ?_, ?_⟩
  · simp [computeCommands, hsame]
  · rw [computeCommands_kinds]; decide
  · rw [computeCommands_kinds]; decide
  · rw [computeCommands_kinds]; decide
  · rw [computeCommands_kinds]; decide

/-- Witness for C7: the command buffer is recorded on the object `CreateComputePipelines`
leaves behind, started from the object as constructed, all calls succeeding. -/
theorem compute_sequence_binds_in_stage_order_witness :
    (∀ k : Nat, PipelineDriver.allSucceed.vkCreateShaderModule k = VK_SUCCESS) ∧
    (∀ k : Nat, PipelineDriver.allSucceed.vkCreateComputePipelines k = VK_SUCCESS) ∧
    RecordingDriver.allSucceed.vkAllocateCommandBuffers = VK_SUCCESS ∧
    RecordingDriver.allSucceed.vkBeginCommandBuffer = VK_SUCCESS ∧
    positionsOf CmdKind.dispatch (List.map Cmd.kind
      (recordedInto
        (CreateComputeCommandBuffer RecordingDriver.allSucceed
          (CreateComputePipelines PipelineDriver.allSucceed
            Application.constructed).app).app.computeCommandBufferHandle
        (CreateComputeCommandBuffer RecordingDriver.allSucceed
          (CreateComputePipelines PipelineDriver.allSucceed
            Application.constructed).app).calls)) = [2, 5, 8] :=
  ⟨fun _ => rfl, fun _ => rfl, rfl, rfl,
    (compute_sequence_binds_in_stage_order PipelineDriver.allSucceed
      RecordingDriver.allSucceed Application.constructed
      (CreateComputePipelines PipelineDriver.allSucceed Application.constructed).app
      (fun _ => rfl) (fun _ => rfl) rfl rfl rfl).2.2.2.2⟩

/-- C8 (what the code records): the last command of the compute sequence is a barrier
whose source and destination stage masks are both exactly the compute-shader stage; the
vertex-input stage, where each graphics command buffer reads the packed buffer bound as
vertex buffer 0, is not in its destination scope, nor in that of any recorded barrier. -/
theorem trailing_barrier_excludes_vertex_input (app : Application) :
    (computeCommands app).getLast? =
      some (Cmd.vkCmdPipelineBarrier
        [VkPipelineStageFlagBits.VK_PIPELINE_STAGE_COMPUTE_SHADER_BIT]
        [VkPipelineStageFlagBits.VK_PIPELINE_STAGE_COMPUTE_SHADER_BIT] 0 0 0) ∧
    stageInScope [VkPipelineStageFlagBits.VK_PIPELINE_STAGE_COMPUTE_SHADER_BIT]
      vertexBufferReadStage = false ∧
    (∀ src dst : VkPipelineStageFlags, ∀ m b i : Nat,
      Cmd.vkCmdPipelineBarrier src dst m b i ∈ computeCommands app →
      stageInScope dst vertexBufferReadStage = false) ∧
    (∀ i : Nat,
      Cmd.vkCmdBindVertexBuffers 0 [app.packedParticlesBufferHandle] [0]
        ∈ graphicsCommands app i ∧
      Cmd.vkCmdDraw SPH_NUM_PARTICLES 1 0 0 ∈ graphicsCommands app i) ∧
    (recordedInto
        (CreateComputeCommandBuffer RecordingDriver.allSucceed
          Application.constructed).app.computeCommandBufferHandle
        (CreateComputeCommandBuffer RecordingDriver.allSucceed
          Application.constructed).calls).getLast? =
      some (Cmd.vkCmdPipelineBarrier
        [VkPipelineStageFlagBits.VK_PIPELINE_STAGE_COMPUTE_SHADER_BIT]
        [VkPipelineStageFlagBits.VK_PIPELINE_STAGE_COMPUTE_SHADER_BIT] 0 0 0) := by
  refine ⟨rfl, by decide, ?_, ?_, by decide⟩
  · intro src dst m b i hmem
    simp [computeCommands] at hmem
    obtain ⟨_, rfl, _⟩ := hmem
    decide
  · intro i
    simp [graphicsCommands]

/-! ## One frame -/

/-- C9: `RunSimulation` makes exactly one call, a `vkQueueSubmit` on `computeQueueHandle`
of one submit info holding exactly one command buffer, `computeCommandBufferHandle`,
with no semaphore and no fence; it records nothing, waits for nothing and leaves the
object unchanged, whether the submission succeeds or not. -/
theorem run_simulation_submits_once_without_wait (drv : FrameDriver) (app : Application) :
    (RunSimulation drv app).calls =
      [Call.vkQueueSubmit app.computeQueueHandle
        [{ pWaitSemaphores := [], pWaitDstStageMask := [],
           pCommandBuffers := [app.computeCommandBufferHandle],
           pSignalSemaphores := [] }]
        VK_NULL_HANDLE] ∧
    ((RunSimulation drv app).calls.filter Call.isSubmit).length = 1 ∧
    (∀ c ∈ (RunSimulation drv app).calls, Call.isWait c = false) ∧
    (∀ c ∈ (RunSimulation drv app).calls, Call.isRecording c = false) ∧
    (RunSimulation drv app).app = app ∧
    (drv.computeSubmit = VK_SUCCESS → (RunSimulation drv app).thrown = none) := by
  refine ⟨rfl, rfl, ?_, ?_, rfl, ?_⟩
  · intro c hc
    simp only [RunSimulation, List.mem_singleton] at hc
    rw [hc]; rfl
  · intro c hc
    simp only [RunSimulation, List.mem_singleton] at hc
    rw [hc]; rfl
  · intro hok
    simp [RunSimulation, hok]

/-- Witness for C9: the object as constructed, with the failing driver and with a driver
that lets the submission succeed. -/
theorem run_simulation_submits_once_without_wait_witness :
    ((RunSimulation FrameDriver.computeSubmitFails Application.constructed).calls.filter
      Call.isSubmit).length = 1 ∧
    (RunSimulation { FrameDriver.computeSubmitFails with computeSubmit := VK_SUCCESS }
      Application.constructed).thrown = none :=
  ⟨(run_simulation_submits_once_without_wait FrameDriver.computeSubmitFails
      Application.constructed).2.1,
   (run_simulation_submits_once_without_wait
      { FrameDriver.computeSubmitFails with computeSubmit := VK_SUCCESS }
      Application.constructed).2.2.2.2.2 rfl⟩

theorem key_callback_touches_flags_only (app : Application) (e : KeyEvent) :
    ∃ p w : Bool, key_callback app e = { app with paused := p, windowShouldClose := w } := by
  unfold key_callback
  split_ifs <;> exact ⟨_, _, rfl⟩

theorem pollEvents_touches_flags_only (events : List KeyEvent) (app : Application) :
    ∃ p w : Bool,
      events.foldl key_callback app = { app with paused := p, windowShouldClose := w } := by
  induction events generalizing app with
  | nil => exact ⟨app.paused, app.windowShouldClose, rfl⟩
  | cons e rest ih =>
    obtain ⟨p1, w1, h1⟩ := key_callback_touches_flags_only app e
    obtain ⟨p2, w2, h2⟩ := ih { app with paused := p1, windowShouldClose := w1 }
    exact ⟨p2, w2, by rw [List.foldl_cons, h1, h2]⟩

/-- C10: in a `MainLoop` iteration that finds `paused` false after polling, a failing
compute submission makes the iteration throw, leaves `frameNumber` unchanged and issues
no call after the compute `vkQueueSubmit` (no graphics submission, no present); a
succeeding one increments the 64-bit `frameNumber` by one. -/
theorem main_loop_compute_failure_is_raised (drv : FrameDriver) (app : Application)
    (hunpaused : (glfwPollEvents drv.keyEvents app).app.paused = false) :
    (drv.computeSubmit ≠ VK_SUCCESS →
      (MainLoop drv app).thrown = some "compute queue submission failed" ∧
      (MainLoop drv app).app.frameNumber = app.frameNumber ∧
      (MainLoop drv app).calls =
        [Call.glfwPollEvents,
         Call.vkQueueSubmit app.computeQueueHandle [app.computeSubmitInfo] VK_NULL_HANDLE] ∧
      ((MainLoop drv app).calls.filter Call.isSubmit).length = 1 ∧
      ((MainLoop drv app).calls.filter Call.isPresent).length = 0) ∧
    (drv.computeSubmit = VK_SUCCESS →
      (MainLoop drv app).app.frameNumber = (app.frameNumber + 1) % 2 ^ 64 ∧
      (app.frameNumber + 1 < 2 ^ 64 →
        (MainLoop drv app).app.frameNumber = app.frameNumber + 1)) := by
  obtain ⟨p, w, hpoll⟩ := pollEvents_touches_flags_only drv.keyEvents app
  simp only [glfwPollEvents] at hunpaused
  rw [hpoll] at hunpaused
  simp only at hunpaused
  subst hunpaused
  constructor
  · intro hfail
    simp [MainLoop, glfwPollEvents, Outcome.andThen, Outcome.ok, RunSimulation, hfail,
      hpoll, Application.computeSubmitInfo, Call.isSubmit, Call.isPresent]
  · intro hok
    have hnum : (MainLoop drv app).app.frameNumber = (app.frameNumber + 1) % 2 ^ 64 := by
      by_cases hg : drv.graphicsSubmit = VK_SUCCESS
      · simp [MainLoop, glfwPollEvents, Outcome.andThen, Outcome.ok, RunSimulation, Render,
          hok, hg, hpoll]
      · simp [MainLoop, glfwPollEvents, Outcome.andThen, Outcome.ok, RunSimulation, Render,
          hok, hg, hpoll]
    refine ⟨hnum, ?_⟩
    intro hfit
    rw [hnum]
    exact Nat.mod_eq_of_lt hfit

/-- Witness for C10: the object as constructed, no key pressed, compute submission
failing with `VK_ERROR_DEVICE_LOST`. -/
theorem main_loop_compute_failure_is_raised_witness :
    (glfwPollEvents FrameDriver.computeSubmitFails.keyEvents Application.constructed).app.paused
      = false ∧
    FrameDriver.computeSubmitFails.computeSubmit ≠ VK_SUCCESS ∧
    (MainLoop FrameDriver.computeSubmitFails Application.constructed).thrown
      = some "compute queue submission failed" ∧
    (MainLoop FrameDriver.computeSubmitFails Application.constructed).app.frameNumber
      = Application.constructed.frameNumber :=
  ⟨rfl, by decide,
    ((main_loop_compute_failure_is_raised FrameDriver.computeSubmitFails
      Application.constructed rfl).1 (by decide)).1,
    ((main_loop_compute_failure_is_raised FrameDriver.computeSubmitFails
      Application.constructed rfl).1 (by decide)).2.1⟩

/-! ## Sequences of frames -/

theorem MainLoop_of_paused (d : FrameDriver) (app : Application)
    (hpaused : (glfwPollEvents d.keyEvents app).app.paused = true) :
    (MainLoop d app).app.frameNumber = app.frameNumber ∧
    (∀ c ∈ (MainLoop d app).calls, ∀ a : Application,
      c ≠ Call.vkQueueSubmit a.computeQueueHandle [a.computeSubmitInfo] VK_NULL_HANDLE) ∧
    (d.graphicsSubmit = VK_SUCCESS →
      (MainLoop d app).thrown = none ∧
      ((MainLoop d app).calls.filter Call.isSubmit).length = 1 ∧
      ((MainLoop d app).calls.filter Call.isPresent).length = 1) := by
  obtain ⟨p, w, hpoll⟩ := pollEvents_touches_flags_only d.keyEvents app
  simp only [glfwPollEvents] at hpaused
  rw [hpoll] at hpaused
  simp only at hpaused
  subst hpaused
  by_cases hg : d.graphicsSubmit = VK_SUCCESS
  · simp [MainLoop, glfwPollEvents, Outcome.andThen, Outcome.ok, Render, hg, hpoll,
      Application.computeSubmitInfo, Application.graphicsSubmitInfo, Call.isSubmit,
      Call.isPresent]
  · simp [MainLoop, glfwPollEvents, Outcome.andThen, Outcome.ok, Render, hg, hpoll,
      Application.computeSubmitInfo, Application.graphicsSubmitInfo, Call.isSubmit,
      Call.isPresent]

theorem MainLoop_of_unpaused_returns (d : FrameDriver) (app : Application)
    (hunpaused : (glfwPollEvents d.keyEvents app).app.paused = false)
    (hret : (MainLoop d app).thrown = none) :
    (MainLoop d app).app.frameNumber = (app.frameNumber + 1) % 2 ^ 64 := by
  obtain ⟨p, w, hpoll⟩ := pollEvents_touches_flags_only d.keyEvents app
  simp only [glfwPollEvents] at hunpaused
  rw [hpoll] at hunpaused
  simp only at hunpaused
  subst hunpaused
  by_cases hc : d.computeSubmit = VK_SUCCESS
  · by_cases hg : d.graphicsSubmit = VK_SUCCESS
    · simp [MainLoop, glfwPollEvents, Outcome.andThen, Outcome.ok, RunSimulation, Render,
        hc, hg, hpoll]
    · simp [MainLoop, glfwPollEvents, Outcome.andThen, Outcome.ok, RunSimulation, Render,
        hc, hg, hpoll]
  · simp [MainLoop, glfwPollEvents, Outcome.andThen, Outcome.ok, RunSimulation, Render,
      hc, hpoll] at hret

/-- No call of `MainLoop` writes through a null pointer. -/
theorem MainLoop_crashed (d : FrameDriver) (app : Application) :
    (MainLoop d app).crashed = false := by
  obtain ⟨p, w, hpoll⟩ := pollEvents_touches_flags_only d.keyEvents app
  cases p <;> by_cases hc : d.computeSubmit = VK_SUCCESS <;>
    by_cases hg : d.graphicsSubmit = VK_SUCCESS <;>
    simp [MainLoop, glfwPollEvents, Outcome.andThen, Outcome.ok, RunSimulation, Render,
      hc, hg, hpoll]

theorem MainLoopIterations_cons_of_thrown (d : FrameDriver) (ds : List FrameDriver)
    (app : Application) (e : String) (h : (MainLoop d app).thrown = some e) :
    MainLoopIterations (d :: ds) app = MainLoop d app := by
  simp [MainLoopIterations, Outcome.andThen, h]

theorem MainLoopIterations_cons_of_returned (d : FrameDriver) (ds : List FrameDriver)
    (app : Application) (h : (MainLoop d app).thrown = none) :
    MainLoopIterations (d :: ds) app =
      { app := (MainLoopIterations ds (MainLoop d app).app).app,
        calls := (MainLoop d app).calls ++ (MainLoopIterations ds (MainLoop d app).app).calls,
        thrown := (MainLoopIterations ds (MainLoop d app).app).thrown,
        crashed := (MainLoopIterations ds (MainLoop d app).app).crashed } := by
  simp [MainLoopIterations, Outcome.andThen, h, MainLoop_crashed]

/-- C11: over any number of `MainLoop` iterations in each of which `paused` is set when it
is tested, the frame counter keeps its value and no call is the compute submission of
`RunSimulation`; when every graphics submission succeeds all iterations return, each with
one (graphics) submission and one present. -/
theorem paused_iterations_keep_frame_counter (drvs : List FrameDriver) (app : Application)
    (hpaused : pausedAtEveryCheck true drvs app = true) :
    (MainLoopIterations drvs app).app.frameNumber = app.frameNumber ∧
    (∀ c ∈ (MainLoopIterations drvs app).calls, ∀ a : Application,
      c ≠ Call.vkQueueSubmit a.computeQueueHandle [a.computeSubmitInfo] VK_NULL_HANDLE) ∧
    ((∀ d ∈ drvs, d.graphicsSubmit = VK_SUCCESS) →
      (MainLoopIterations drvs app).thrown = none ∧
      ((MainLoopIterations drvs app).calls.filter Call.isSubmit).length = drvs.length ∧
      ((MainLoopIterations drvs app).calls.filter Call.isPresent).length = drvs.length) := by
  induction drvs generalizing app with
  | nil =>
    refine ⟨rfl, ?_, fun _ => ⟨rfl, rfl, rfl⟩⟩
    intro c hc
    simp [MainLoopIterations, Outcome.ok] at hc
  | cons d ds ih =>
    simp only [pausedAtEveryCheck, Bool.and_eq_true, beq_iff_eq] at hpaused
    obtain ⟨hd, hds⟩ := hpaused
    obtain ⟨hnum, hnone, hgood⟩ := MainLoop_of_paused d app hd
    obtain ⟨ihnum, ihnone, ihgood⟩ := ih (MainLoop d app).app hds
    cases hthrown : (MainLoop d app).thrown with
    | some e =>
      rw [MainLoopIterations_cons_of_thrown d ds app e hthrown]
      refine ⟨hnum, hnone, ?_⟩
      intro hall
      have hret := (hgood (hall d (List.mem_cons_self d ds))).1
      rw [hthrown] at hret
      exact Option.noConfusion hret
    | none =>
      rw [MainLoopIterations_cons_of_returned d ds app hthrown]
      refine ⟨by rw [ihnum, hnum], ?_, ?_⟩
      · intro c hc a
        rcases List.mem_append.mp hc with h | h
        · exact hnone c h a
        · exact ihnone c h a
      · intro hall
        obtain ⟨_, h1, h2⟩ := hgood (hall d (List.mem_cons_self d ds))
        obtain ⟨h3, h4, h5⟩ := ihgood (fun d' hd' => hall d' (List.mem_cons_of_mem d hd'))
        refine ⟨h3, ?_, ?_⟩
        · simp only [List.filter_append, List.length_append, List.length_cons, h1, h4]
          omega
        · simp only [List.filter_append, List.length_append, List.length_cons, h2, h5]
          omega

/-- Witness for C11: three frames on an object whose `paused` is set, no key pressed. -/
theorem paused_iterations_keep_frame_counter_witness :
    pausedAtEveryCheck true
      [FrameDriver.allSucceed, FrameDriver.allSucceed, FrameDriver.allSucceed]
      { Application.constructed with paused := true } = true ∧
    (MainLoopIterations
      [FrameDriver.allSucceed, FrameDriver.allSucceed, FrameDriver.allSucceed]
      { Application.constructed with paused := true }).app.frameNumber = 1 :=
  ⟨by decide,
    (paused_iterations_keep_frame_counter
      [FrameDriver.allSucceed, FrameDriver.allSucceed, FrameDriver.allSucceed]
      { Application.constructed with paused := true } (by decide)).1⟩

theorem MainLoop_unpaused_returns_only_on_success (d : FrameDriver) (app : Application)
    (hunpaused : (glfwPollEvents d.keyEvents app).app.paused = false)
    (hret : (MainLoop d app).thrown = none) :
    d.computeSubmit = VK_SUCCESS ∧ d.graphicsSubmit = VK_SUCCESS := by
  obtain ⟨p, w, hpoll⟩ := pollEvents_touches_flags_only d.keyEvents app
  simp only [glfwPollEvents] at hunpaused
  rw [hpoll] at hunpaused
  simp only at hunpaused
  subst hunpaused
  by_cases hc : d.computeSubmit = VK_SUCCESS
  · by_cases hg : d.graphicsSubmit = VK_SUCCESS
    · exact ⟨hc, hg⟩
    · simp [MainLoop, glfwPollEvents, Outcome.andThen, Outcome.ok, RunSimulation, Render,
        hc, hg, hpoll] at hret
  · simp [MainLoop, glfwPollEvents, Outcome.andThen, Outcome.ok, RunSimulation, Render,
      hc, hpoll] at hret

theorem unpaused_iterations_advance_counter (drvs : List FrameDriver) (app : Application)
    (hwf : app.frameNumber < 2 ^ 64)
    (hunpaused : pausedAtEveryCheck false drvs app = true)
    (hret : (MainLoopIterations drvs app).thrown = none) :
    (MainLoopIterations drvs app).app.frameNumber
      = (app.frameNumber + drvs.length) % 2 ^ 64 := by
  induction drvs generalizing app with
  | nil =>
    simp only [MainLoopIterations, Outcome.ok, List.length_nil, Nat.add_zero]
    exact (Nat.mod_eq_of_lt hwf).symm
  | cons d ds ih =>
    simp only [pausedAtEveryCheck, Bool.and_eq_true, beq_iff_eq] at hunpaused
    obtain ⟨hd, hds⟩ := hunpaused
    cases hthrown : (MainLoop d app).thrown with
    | some e =>
      rw [MainLoopIterations_cons_of_thrown d ds app e hthrown, hthrown] at hret
      exact Option.noConfusion hret
    | none =>
      rw [MainLoopIterations_cons_of_returned d ds app hthrown] at hret ⊢
      simp only at hret ⊢
      have hstep := MainLoop_of_unpaused_returns d app hd hthrown
      have hwf1 : (MainLoop d app).app.frameNumber < 2 ^ 64 := by
        rw [hstep]; exact Nat.mod_lt _ (by decide)
      rw [ih (MainLoop d app).app hwf1 hds hret, hstep, List.length_cons]
      omega

theorem allSucceed_frames_return (n : Nat) (app : Application)
    (hclear : app.paused = false) :
    pausedAtEveryCheck false (List.replicate n FrameDriver.allSucceed) app = true ∧
    (MainLoopIterations (List.replicate n FrameDriver.allSucceed) app).thrown = none := by
  induction n generalizing app with
  | zero => exact ⟨rfl, rfl⟩
  | succ n ih =>
    have hret : (MainLoop FrameDriver.allSucceed app).thrown = none := by
      simp [MainLoop, glfwPollEvents, Outcome.andThen, Outcome.ok, RunSimulation, Render,
        FrameDriver.allSucceed, hclear]
    have hstill : (MainLoop FrameDriver.allSucceed app).app.paused = false := by
      simp [MainLoop, glfwPollEvents, Outcome.andThen, Outcome.ok, RunSimulation, Render,
        FrameDriver.allSucceed, hclear]
    obtain ⟨h1, h2⟩ := ih (MainLoop FrameDriver.allSucceed app).app hstill
    rw [List.replicate_succ]
    constructor
    · simp only [pausedAtEveryCheck, Bool.and_eq_true, beq_iff_eq]
      exact ⟨by simp [glfwPollEvents, FrameDriver.allSucceed, hclear], h1⟩
    · rw [MainLoopIterations_cons_of_returned _ _ app hret]
      exact h2

/-- C12 (as stated) fails: 100 iterations with no key pressed and every call succeeding,
started on the object as constructed, all return and leave the frame counter at 101. -/
theorem hundred_frames_counter_is_not_hundred :
    (List.replicate 100 FrameDriver.allSucceed).length = 100 ∧
    pausedAtEveryCheck false (List.replicate 100 FrameDriver.allSucceed)
      Application.constructed = true ∧
    (∀ d ∈ List.replicate 100 FrameDriver.allSucceed, d.computeSubmit = VK_SUCCESS) ∧
    (MainLoopIterations (List.replicate 100 FrameDriver.allSucceed)
      Application.constructed).thrown = none ∧
    (MainLoopIterations (List.replicate 100 FrameDriver.allSucceed)
      Application.constructed).app.frameNumber = 101 ∧
    (MainLoopIterations (List.replicate 100 FrameDriver.allSucceed)
      Application.constructed).app.frameNumber ≠ 100 := by
  obtain ⟨h1, h2⟩ := allSucceed_frames_return 100 Application.constructed rfl
  have hnum := unpaused_iterations_advance_counter
    (List.replicate 100 FrameDriver.allSucceed) Application.constructed (by decide) h1 h2
  have h101 : (MainLoopIterations (List.replicate 100 FrameDriver.allSucceed)
      Application.constructed).app.frameNumber = 101 := by
    rw [hnum, List.length_replicate]
    decide
  refine ⟨List.length_replicate 100 _, h1, ?_, h2, h101, by rw [h101]; decide⟩
  intro d hd
  rw [List.eq_of_mem_replicate hd]
  rfl

/-- C12 (amended): started on the object as constructed, whose frame counter is 1, after
exactly 100 `MainLoop` iterations that all return and in which `paused` is never set when
tested, the frame counter equals exactly 101: it has advanced by exactly 100. -/
theorem hundred_unpaused_frames_counter (drvs : List FrameDriver)
    (hlen : drvs.length = 100)
    (hunpaused : pausedAtEveryCheck false drvs Application.constructed = true)
    (hret : (MainLoopIterations drvs Application.constructed).thrown = none) :
    Application.constructed.frameNumber = 1 ∧
    (MainLoopIterations drvs Application.constructed).app.frameNumber = 101 ∧
    (MainLoopIterations drvs Application.constructed).app.frameNumber
      = Application.constructed.frameNumber + 100 := by
  have hnum : (MainLoopIterations drvs Application.constructed).app.frameNumber = 101 := by
    rw [unpaused_iterations_advance_counter drvs Application.constructed (by decide)
      hunpaused hret, hlen]
    decide
  exact ⟨rfl, hnum, by rw [hnum]; rfl⟩

/-- Witness for C12 (amended): 100 frames with no key pressed and every call succeeding. -/
theorem hundred_unpaused_frames_counter_witness :
    (List.replicate 100 FrameDriver.allSucceed).length = 100 ∧
    pausedAtEveryCheck false (List.replicate 100 FrameDriver.allSucceed)
      Application.constructed = true ∧
    (MainLoopIterations (List.replicate 100 FrameDriver.allSucceed)
      Application.constructed).thrown = none ∧
    (MainLoopIterations (List.replicate 100 FrameDriver.allSucceed)
      Application.constructed).app.frameNumber = 101 :=
  ⟨List.length_replicate 100 _,
    (allSucceed_frames_return 100 Application.constructed rfl).1,
    (allSucceed_frames_return 100 Application.constructed rfl).2,
    (hundred_unpaused_frames_counter (List.replicate 100 FrameDriver.allSucceed)
      (List.length_replicate 100 _)
      (allSucceed_frames_return 100 Application.constructed rfl).1
      (allSucceed_frames_return 100 Application.constructed rfl).2).2.1⟩

/-! ## Pause toggling -/

theorem key_callback_spacePress (app : Application) :
    key_callback app spacePress = { app with paused := !app.paused } := by
  simp [key_callback, spacePress]

theorem toggles_by_parity (n : Nat) (app : Application) :
    (List.replicate n spacePress).foldl key_callback app =
      { app with paused := if n % 2 = 0 then app.paused else !app.paused } := by
  induction n generalizing app with
  | zero => rfl
  | succ n ih =>
    rw [List.replicate_succ, List.foldl_cons, key_callback_spacePress, ih]
    rcases Nat.mod_two_eq_zero_or_one n with h | h
    · have h1 : (n + 1) % 2 = 1 := by omega
      simp [h, h1]
    · have h1 : (n + 1) % 2 = 0 := by omega
      simp [h, h1]

/-- C13: an even number `2 * m` of space-key presses leaves the object, and so the pause
flag, as it was, hence the next `MainLoop` iteration has the same outcome, frame counter
included, as it would have had before the presses; an odd number `2 * m + 1` of presses
inverts the pause flag and changes nothing else. -/
theorem even_toggles_restore_pause (m : Nat) (app : Application) :
    (List.replicate (2 * m) spacePress).foldl key_callback app = app ∧
    ((List.replicate (2 * m) spacePress).foldl key_callback app).paused = app.paused ∧
    (∀ d : FrameDriver,
      MainLoop d ((List.replicate (2 * m) spacePress).foldl key_callback app)
        = MainLoop d app) ∧
    (∀ d : FrameDriver,
      (MainLoop d ((List.replicate (2 * m) spacePress).foldl key_callback app)).app.frameNumber
        = (MainLoop d app).app.frameNumber) ∧
    ((List.replicate (2 * m + 1) spacePress).foldl key_callback app).paused = !app.paused ∧
    (List.replicate (2 * m + 1) spacePress).foldl key_callback app
      = { app with paused := !app.paused } := by
  have heven : (List.replicate (2 * m) spacePress).foldl key_callback app = app := by
    rw [toggles_by_parity, if_pos (by omega)]
  have hodd : (List.replicate (2 * m + 1) spacePress).foldl key_callback app
      = { app with paused := !app.paused } := by
    rw [toggles_by_parity, if_neg (by omega)]
  refine ⟨heven, by rw [heven], ?_, ?_, by rw [hodd], hodd⟩
  · intro d; rw [heven]
  · intro d; rw [heven]

/-! ## Order of the calls of one frame -/

/-- C14: the calls of a `MainLoop` iteration are an initial part of: poll events; the
compute submission if and only if `paused` is clear after polling; acquire the next
image; the graphics submission; present; idle-wait on the presentation queue; window
title.  An iteration that returns makes all of them, and from the idle-wait on only the
idle-wait and the title update follow; an iteration stops early only by throwing. -/
theorem main_loop_call_order (d : FrameDriver) (app : Application) :
    (MainLoop d app).calls <+:
      ([Call.glfwPollEvents] ++
        (if (glfwPollEvents d.keyEvents app).app.paused = false then
          [Call.vkQueueSubmit app.computeQueueHandle
            [{ pWaitSemaphores := [], pWaitDstStageMask := [],
               pCommandBuffers := [app.computeCommandBufferHandle],
               pSignalSemaphores := [] }] VK_NULL_HANDLE]
         else []) ++
        [Call.vkAcquireNextImageKHR app.swapchainHandle UINT64_MAX
           app.imageAvailableSemaphoreHandle VK_NULL_HANDLE,
         Call.vkQueueSubmit app.graphicsQueueHandle
           [{ pWaitSemaphores := [app.imageAvailableSemaphoreHandle],
              pWaitDstStageMask :=
                [[VkPipelineStageFlagBits.VK_PIPELINE_STAGE_COLOR_ATTACHMENT_OUTPUT_BIT]],
              pCommandBuffers :=
                [app.graphicsCommandBufferHandles.getD d.acquiredImageIndex
                  d.commandBufferPastEnd],
              pSignalSemaphores := [app.renderFinishedSemaphoreHandle] }] VK_NULL_HANDLE,
         Call.vkQueuePresentKHR app.presentationQueueHandle
           { pWaitSemaphores := [app.renderFinishedSemaphoreHandle],
             pSwapchains := [app.swapchainHandle],
             pImageIndices := [d.acquiredImageIndex] },
         Call.vkQueueWaitIdle app.presentationQueueHandle,
         Call.glfwSetWindowTitle]) ∧
    ((MainLoop d app).thrown = none →
      (MainLoop d app).calls =
        ([Call.glfwPollEvents] ++
          (if (glfwPollEvents d.keyEvents app).app.paused = false then
            [Call.vkQueueSubmit app.computeQueueHandle
              [{ pWaitSemaphores := [], pWaitDstStageMask := [],
                 pCommandBuffers := [app.computeCommandBufferHandle],
                 pSignalSemaphores := [] }] VK_NULL_HANDLE]
           else []) ++
          [Call.vkAcquireNextImageKHR app.swapchainHandle UINT64_MAX
             app.imageAvailableSemaphoreHandle VK_NULL_HANDLE,
           Call.vkQueueSubmit app.graphicsQueueHandle
             [{ pWaitSemaphores := [app.imageAvailableSemaphoreHandle],
                pWaitDstStageMask :=
                  [[VkPipelineStageFlagBits.VK_PIPELINE_STAGE_COLOR_ATTACHMENT_OUTPUT_BIT]],
                pCommandBuffers :=
                  [app.graphicsCommandBufferHandles.getD d.acquiredImageIndex
                    d.commandBufferPastEnd],
                pSignalSemaphores := [app.renderFinishedSemaphoreHandle] }] VK_NULL_HANDLE,
           Call.vkQueuePresentKHR app.presentationQueueHandle
             { pWaitSemaphores := [app.renderFinishedSemaphoreHandle],
               pSwapchains := [app.swapchainHandle],
               pImageIndices := [d.acquiredImageIndex] },
           Call.vkQueueWaitIdle app.presentationQueueHandle,
           Call.glfwSetWindowTitle]) ∧
      (MainLoop d app).calls.dropWhile (fun c => !Call.isWait c) =
        [Call.vkQueueWaitIdle app.presentationQueueHandle, Call.glfwSetWindowTitle]) ∧
    ((MainLoop d app).calls.filter Call.isSubmit).length ≤ 2 ∧
    ((MainLoop d app).calls.filter Call.isPresent).length ≤ 1 ∧
    ((MainLoop d app).calls.filter Call.isWait).length ≤ 1 := by
  obtain ⟨p, w, hpoll⟩ := pollEvents_touches_flags_only d.keyEvents app
  cases p <;> by_cases hc : d.computeSubmit = VK_SUCCESS <;>
    by_cases hg : d.graphicsSubmit = VK_SUCCESS <;>
    simp [MainLoop, glfwPollEvents, Outcome.andThen, Outcome.ok, RunSimulation, Render,
      hc, hg, hpoll, Application.computeSubmitInfo, Application.graphicsSubmitInfo,
      Application.presentInfo, Call.isSubmit, Call.isPresent, Call.isWait,
      List.prefix_iff_eq_take]

/-- Witness for C14: a frame on the object as constructed in which every call succeeds
returns, so all its calls are made. -/
theorem main_loop_call_order_witness :
    (MainLoop FrameDriver.allSucceed Application.constructed).thrown = none ∧
    (MainLoop FrameDriver.allSucceed Application.constructed).calls.dropWhile
        (fun c => !Call.isWait c) =
      [Call.vkQueueWaitIdle Application.constructed.presentationQueueHandle,
       Call.glfwSetWindowTitle] :=
  ⟨by decide,
    ((main_loop_call_order FrameDriver.allSucceed Application.constructed).2.1
      (by decide)).2⟩

/-! ## Vertex input of the render commands -/

theorem CreateGraphicsPipeline_of_success (drv : GraphicsPipelineDriver) (app : Application)
    (hmodule : ∀ k : Nat, drv.vkCreateShaderModule k = VK_SUCCESS)
    (hpipeline : drv.vkCreateGraphicsPipelines = VK_SUCCESS) :
    (CreateGraphicsPipeline drv app).thrown = none ∧
    (CreateGraphicsPipeline drv app).app.graphicsPipelineHandle =
      VkPipeline.graphics (MU_SHADER_PATH ++ "particle.vert.spv")
        (MU_SHADER_PATH ++ "particle.frag.spv")
        [{ binding := 0, stride := 8 }]
        [{ location := 0, binding := 0, format := VkFormat.VK_FORMAT_R32G32_SFLOAT,
           offset := 0 }] := by
  simp [CreateGraphicsPipeline, hmodule, hpipeline, sizeof_vec2]

theorem vertexBytes_of_packed_positions (x : Nat) :
    vertexBytes 0 8 0 8 0 20000 x ↔ x < 160000 := by
  unfold vertexBytes
  constructor
  · rintro ⟨v, _, hv, _, hx⟩
    omega
  · intro hx
    exact ⟨x / 8, by omega, by omega, by omega, by omega⟩

/-- `CreateGraphicsPipeline` changes no member but `graphicsPipelineHandle`. -/
theorem CreateGraphicsPipeline_app (drv : GraphicsPipelineDriver) (app : Application) :
    ∃ pipeline : VkPipeline,
      (CreateGraphicsPipeline drv app).app = { app with graphicsPipelineHandle := pipeline } := by
  by_cases h0 : drv.vkCreateShaderModule 0 = VK_SUCCESS <;>
    by_cases h1 : drv.vkCreateShaderModule 1 = VK_SUCCESS <;>
    by_cases h2 : drv.vkCreateGraphicsPipelines = VK_SUCCESS <;>
    simp only [CreateGraphicsPipeline, h0, h1, h2, ne_eq, not_true_eq_false,
      not_false_eq_true, if_true, if_false] <;>
    exact ⟨_, rfl⟩

theorem recordedInto_append (cb : Handle) (xs ys : List Call) :
    recordedInto cb (xs ++ ys) = recordedInto cb xs ++ recordedInto cb ys := by
  simp [recordedInto, List.filterMap_append]

/-- The loop of `CreateGraphicsCommandBuffers` when every `vkEndCommandBuffer` succeeds:
the object is unchanged and the calls of the iterations follow one another. -/
theorem recordGraphicsCommandBuffer_foldl (drv : GraphicsRecordingDriver)
    (hend : ∀ i : Nat, drv.vkEndCommandBuffer i = VK_SUCCESS) :
    ∀ (indices : List Nat) (start : Outcome), start.thrown = none → start.crashed = false →
      indices.foldl (fun done i => done.andThen (recordGraphicsCommandBuffer drv i)) start =
        { app := start.app,
          calls := start.calls ++
            (indices.map fun i => (recordGraphicsCommandBuffer drv i start.app).calls).flatten,
          thrown := none, crashed := false } := by
  intro indices
  induction indices with
  | nil =>
    intro start ht hc
    cases start
    simp_all
  | cons i rest ih =>
    intro start ht hc
    rw [List.foldl_cons]
    have hstep : start.andThen (recordGraphicsCommandBuffer drv i) =
        { app := start.app,
          calls := start.calls ++ (recordGraphicsCommandBuffer drv i start.app).calls,
          thrown := none, crashed := false } := by
      simp [Outcome.andThen, ht, hc, recordGraphicsCommandBuffer, hend]
    rw [hstep, ih _ rfl rfl]
    simp [List.append_assoc]

/-- The commands that iteration `j` of the loop records into command buffer `cb`. -/
theorem recordedInto_recordGraphicsCommandBuffer (drv : GraphicsRecordingDriver)
    (app : Application) (cb : Handle) (j : Nat) :
    recordedInto cb (recordGraphicsCommandBuffer drv j app).calls =
      if app.graphicsCommandBufferHandles.getD j VK_NULL_HANDLE = cb then graphicsCommands app j
      else [] := by
  by_cases h : app.graphicsCommandBufferHandles.getD j VK_NULL_HANDLE = cb
  · simp [recordGraphicsCommandBuffer, recordedInto, graphicsCommands, h,
      -List.getD_eq_getElem?_getD]
  · simp [recordGraphicsCommandBuffer, recordedInto, graphicsCommands, h,
      -List.getD_eq_getElem?_getD]

/-- With pairwise different command buffer handles, the commands the first `n` iterations
record into the command buffer of index `i` are those of iteration `i`. -/
theorem recordedInto_iterations (drv : GraphicsRecordingDriver) (app : Application)
    (i count : Nat)
    (hdistinct : ∀ j k : Nat, j < count → k < count →
      app.graphicsCommandBufferHandles.getD j VK_NULL_HANDLE =
        app.graphicsCommandBufferHandles.getD k VK_NULL_HANDLE → j = k)
    (hi : i < count) :
    ∀ n : Nat, n ≤ count →
      recordedInto (app.graphicsCommandBufferHandles.getD i VK_NULL_HANDLE)
          ((List.range n).map fun j => (recordGraphicsCommandBuffer drv j app).calls).flatten =
        if i < n then graphicsCommands app i else [] := by
  intro n
  induction n with
  | zero => intro _; simp [recordedInto]
  | succ n ih =>
    intro hn
    rw [List.range_succ, List.map_append, List.flatten_append, recordedInto_append,
      ih (by omega)]
    simp only [List.map_cons, List.map_nil, List.flatten_cons, List.flatten_nil,
      List.append_nil]
    rw [recordedInto_recordGraphicsCommandBuffer]
    by_cases hlt : i < n
    · have hne : ¬ app.graphicsCommandBufferHandles.getD n VK_NULL_HANDLE =
          app.graphicsCommandBufferHandles.getD i VK_NULL_HANDLE := by
        intro h
        have := hdistinct n i (by omega) hi h
        omega
      simp [hlt, hne, Nat.lt_succ_of_lt hlt, -List.getD_eq_getElem?_getD]
    · by_cases heq : i = n
      · subst heq
        simp
      · have hne : ¬ app.graphicsCommandBufferHandles.getD n VK_NULL_HANDLE =
            app.graphicsCommandBufferHandles.getD i VK_NULL_HANDLE := by
          intro h
          have := hdistinct n i (by omega) hi h
          omega
        have : ¬ i < n + 1 := by omega
        simp [hlt, hne, this, -List.getD_eq_getElem?_getD]

/-- What `CreateGraphicsCommandBuffers` leaves when the allocation and every
`vkEndCommandBuffer` succeed and the driver hands out pairwise different handles: it
returns, the handles are the allocated ones, and the commands recorded into the command
buffer of index `i` are `graphicsCommands` for `i`. -/
theorem CreateGraphicsCommandBuffers_of_success (drv : GraphicsRecordingDriver)
    (app : Application) (i : Nat)
    (halloc : drv.vkAllocateCommandBuffers = VK_SUCCESS)
    (hend : ∀ k : Nat, drv.vkEndCommandBuffer k = VK_SUCCESS)
    (hdistinct : ∀ j k : Nat, j < app.swapchainFrameBufferHandles.length →
      k < app.swapchainFrameBufferHandles.length →
      drv.allocated.getD j VK_NULL_HANDLE = drv.allocated.getD k VK_NULL_HANDLE → j = k)
    (hi : i < app.swapchainFrameBufferHandles.length) :
    (CreateGraphicsCommandBuffers drv app).thrown = none ∧
    (CreateGraphicsCommandBuffers drv app).crashed = false ∧
    (CreateGraphicsCommandBuffers drv app).app =
      { app with graphicsCommandBufferHandles :=
          (List.range app.swapchainFrameBufferHandles.length).map fun k =>
            drv.allocated.getD k VK_NULL_HANDLE } ∧
    (∀ pastEnd : Handle,
      (CreateGraphicsCommandBuffers drv app).app.graphicsCommandBufferHandles.getD i pastEnd
        = drv.allocated.getD i VK_NULL_HANDLE) ∧
    recordedInto (drv.allocated.getD i VK_NULL_HANDLE)
        (CreateGraphicsCommandBuffers drv app).calls =
      graphicsCommands (CreateGraphicsCommandBuffers drv app).app i := by
  have hget : ∀ (k : Nat) (pastEnd : Handle), k < app.swapchainFrameBufferHandles.length →
      ((List.range app.swapchainFrameBufferHandles.length).map fun k =>
        drv.allocated.getD k VK_NULL_HANDLE).getD k pastEnd
        = drv.allocated.getD k VK_NULL_HANDLE := by
    intro k pastEnd hk
    simp [List.getD, List.getElem?_map, List.getElem?_range, hk]
  have hrun : CreateGraphicsCommandBuffers drv app =
      { app := { app with graphicsCommandBufferHandles :=
          (List.range app.swapchainFrameBufferHandles.length).map fun k =>
            drv.allocated.getD k VK_NULL_HANDLE },
        calls := [Call.vkAllocateCommandBuffers app.graphicsCommandPoolHandle
            app.swapchainFrameBufferHandles.length] ++
          ((List.range app.swapchainFrameBufferHandles.length).map fun j =>
            (recordGraphicsCommandBuffer drv j
              { app with graphicsCommandBufferHandles :=
                (List.range app.swapchainFrameBufferHandles.length).map fun k =>
                  drv.allocated.getD k VK_NULL_HANDLE }).calls).flatten,
        thrown := none, crashed := false } := by
    unfold CreateGraphicsCommandBuffers
    simp only [halloc, ne_eq, not_true_eq_false, if_false]
    rw [recordGraphicsCommandBuffer_foldl drv hend _ _ rfl rfl]
  rw [hrun]
  refine ⟨rfl, rfl, rfl, fun pastEnd => hget i pastEnd hi, ?_⟩
  rw [recordedInto_append]
  have hrec := recordedInto_iterations drv
    { app with graphicsCommandBufferHandles :=
      (List.range app.swapchainFrameBufferHandles.length).map fun k =>
        drv.allocated.getD k VK_NULL_HANDLE } i app.swapchainFrameBufferHandles.length
    (by
      intro j k hj hk h
      simp only at h
      rw [hget j _ hj, hget k _ hk] at h
      exact hdistinct j k hj hk h) hi
    app.swapchainFrameBufferHandles.length (Nat.le_refl _)
  simp only at hrec
  rw [hget i _ hi] at hrec
  rw [hrec]
  simp [recordedInto, hi]

/-- C15: with the graphics pipeline created by `CreateGraphicsPipeline` and the command
buffers recorded by `CreateGraphicsCommandBuffers`, the command buffer that `Render`
submits for the acquired image holds a bind of the packed buffer at offset
`positionSsboOffset` and a draw of `SPH_NUM_PARTICLES` vertices; the stride 8 times the
vertex count is `positionSsboSize`; the bytes of the packed buffer read as vertex input by
the recorded commands are exactly those of the position sub-range, and no byte from
`velocitySsboOffset` on is read. -/
theorem vertex_input_is_position_range (pdrv : GraphicsPipelineDriver)
    (gdrv : GraphicsRecordingDriver) (d : FrameDriver) (app0 : Application)
    (hmodule : ∀ k : Nat, pdrv.vkCreateShaderModule k = VK_SUCCESS)
    (hpipeline : pdrv.vkCreateGraphicsPipelines = VK_SUCCESS)
    (halloc : gdrv.vkAllocateCommandBuffers = VK_SUCCESS)
    (hend : ∀ k : Nat, gdrv.vkEndCommandBuffer k = VK_SUCCESS)
    (hdistinct : ∀ j k : Nat, j < app0.swapchainFrameBufferHandles.length →
      k < app0.swapchainFrameBufferHandles.length →
      gdrv.allocated.getD j VK_NULL_HANDLE = gdrv.allocated.getD k VK_NULL_HANDLE → j = k)
    (hindex : d.acquiredImageIndex < app0.swapchainFrameBufferHandles.length) :
    (CreateGraphicsCommandBuffers gdrv (CreateGraphicsPipeline pdrv app0).app).thrown = none ∧
    (Render d (CreateGraphicsCommandBuffers gdrv
        (CreateGraphicsPipeline pdrv app0).app).app).app.graphicsSubmitInfo.pCommandBuffers =
      [gdrv.allocated.getD d.acquiredImageIndex VK_NULL_HANDLE] ∧
    Call.vkQueueSubmit app0.graphicsQueueHandle
        [(Render d (CreateGraphicsCommandBuffers gdrv
          (CreateGraphicsPipeline pdrv app0).app).app).app.graphicsSubmitInfo] VK_NULL_HANDLE
      ∈ (Render d (CreateGraphicsCommandBuffers gdrv
          (CreateGraphicsPipeline pdrv app0).app).app).calls ∧
    Cmd.vkCmdBindVertexBuffers 0 [app0.packedParticlesBufferHandle] [positionSsboOffset]
      ∈ recordedInto (gdrv.allocated.getD d.acquiredImageIndex VK_NULL_HANDLE)
          (CreateGraphicsCommandBuffers gdrv (CreateGraphicsPipeline pdrv app0).app).calls ∧
    Cmd.vkCmdDraw SPH_NUM_PARTICLES 1 0 0
      ∈ recordedInto (gdrv.allocated.getD d.acquiredImageIndex VK_NULL_HANDLE)
          (CreateGraphicsCommandBuffers gdrv (CreateGraphicsPipeline pdrv app0).app).calls ∧
    8 * SPH_NUM_PARTICLES = positionSsboSize SPH_NUM_PARTICLES ∧
    (∀ x : Nat,
      readsAsVertexInput
          (CreateGraphicsCommandBuffers gdrv
            (CreateGraphicsPipeline pdrv app0).app).app.graphicsPipelineHandle
          (recordedInto (gdrv.allocated.getD d.acquiredImageIndex VK_NULL_HANDLE)
            (CreateGraphicsCommandBuffers gdrv (CreateGraphicsPipeline pdrv app0).app).calls)
          app0.packedParticlesBufferHandle x ↔
        positionSsboOffset ≤ x ∧
          x < positionSsboOffset + positionSsboSize SPH_NUM_PARTICLES) ∧
    (∀ x : Nat, velocitySsboOffset SPH_NUM_PARTICLES ≤ x →
      ¬ readsAsVertexInput
          (CreateGraphicsCommandBuffers gdrv
            (CreateGraphicsPipeline pdrv app0).app).app.graphicsPipelineHandle
          (recordedInto (gdrv.allocated.getD d.acquiredImageIndex VK_NULL_HANDLE)
            (CreateGraphicsCommandBuffers gdrv (CreateGraphicsPipeline pdrv app0).app).calls)
          app0.packedParticlesBufferHandle x) := by
  obtain ⟨_, hcreated⟩ := CreateGraphicsPipeline_of_success pdrv app0 hmodule hpipeline
  obtain ⟨pipeline, happ1⟩ := CreateGraphicsPipeline_app pdrv app0
  rw [happ1] at hcreated
  dsimp only at hcreated
  rw [happ1]
  obtain ⟨hret, _, happ2, hhandle, hrec⟩ :=
    CreateGraphicsCommandBuffers_of_success gdrv
      { app0 with graphicsPipelineHandle := pipeline }
      d.acquiredImageIndex halloc hend hdistinct hindex
  rw [hrec]
  have hsize : positionSsboSize SPH_NUM_PARTICLES = 160000 := by decide
  have hvel : velocitySsboOffset SPH_NUM_PARTICLES = 160000 := by decide
  have hreads : ∀ x : Nat,
      readsAsVertexInput
          (CreateGraphicsCommandBuffers gdrv
            { app0 with graphicsPipelineHandle := pipeline }).app.graphicsPipelineHandle
          (graphicsCommands (CreateGraphicsCommandBuffers gdrv
            { app0 with graphicsPipelineHandle := pipeline }).app d.acquiredImageIndex)
          app0.packedParticlesBufferHandle x ↔ x < 160000 := by
    intro x
    rw [← vertexBytes_of_packed_positions x, happ2]
    dsimp only
    rw [hcreated]
    unfold readsAsVertexInput
    constructor
    · rintro ⟨vs, fs, bindings, attributes, hp, fb, bufs, offs, hbind, vc, ic, fv, fi, hdraw,
        b, hb, a, ha, _, _, _, o, ho, hbytes⟩
      simp only [VkPipeline.graphics.injEq] at hp
      obtain ⟨_, _, hbs, has⟩ := hp
      subst hbs has
      simp only [List.mem_singleton] at hb ha
      subst hb ha
      simp [graphicsCommands, SPH_NUM_PARTICLES] at hbind hdraw
      obtain ⟨rfl, rfl, rfl⟩ := hbind
      obtain ⟨rfl, _, rfl, _⟩ := hdraw
      simp at ho
      subst ho
      exact hbytes
    · intro hbytes
      refine ⟨_, _, _, _, rfl, 0, [app0.packedParticlesBufferHandle], [0], ?_, 20000, 1, 0, 0,
        ?_, { binding := 0, stride := 8 }, List.mem_singleton.mpr rfl,
        { location := 0, binding := 0, format := VkFormat.VK_FORMAT_R32G32_SFLOAT,
          offset := 0 }, List.mem_singleton.mpr rfl, rfl, Nat.le_refl 0, rfl, 0, rfl, hbytes⟩
      · simp [graphicsCommands]
      · simp [graphicsCommands, SPH_NUM_PARTICLES]
  refine ⟨hret, ?_, ?_, ?_, ?_, by rw [hsize]; rfl, ?_, ?_⟩
  · rw [← hhandle d.commandBufferPastEnd]
    by_cases hg : d.graphicsSubmit = VK_SUCCESS <;>
      simp [Render, Application.graphicsSubmitInfo, hg]
  · rw [happ2]
    by_cases hg : d.graphicsSubmit = VK_SUCCESS <;> simp [Render, hg]
  · rw [happ2]; simp [graphicsCommands, positionSsboOffset]
  · rw [happ2]; simp [graphicsCommands]
  · intro x
    rw [hreads x, hsize]
    unfold positionSsboOffset
    omega
  · intro x hx
    rw [hreads x]
    rw [hvel] at hx
    omega

/-- Witness for C15: a swapchain of three images, the pipeline and the command buffers
created with every call succeeding, and a frame that acquires image 0. -/
theorem vertex_input_is_position_range_witness :
    (∀ k : Nat, GraphicsPipelineDriver.allSucceed.vkCreateShaderModule k = VK_SUCCESS) ∧
    GraphicsPipelineDriver.allSucceed.vkCreateGraphicsPipelines = VK_SUCCESS ∧
    GraphicsRecordingDriver.allSucceed.vkAllocateCommandBuffers = VK_SUCCESS ∧
    (∀ k : Nat, GraphicsRecordingDriver.allSucceed.vkEndCommandBuffer k = VK_SUCCESS) ∧
    FrameDriver.allSucceed.acquiredImageIndex
      < Application.withThreeFramebuffers.swapchainFrameBufferHandles.length ∧
    (∀ x : Nat,
      readsAsVertexInput
          (CreateGraphicsCommandBuffers GraphicsRecordingDriver.allSucceed
            (CreateGraphicsPipeline GraphicsPipelineDriver.allSucceed
              Application.withThreeFramebuffers).app).app.graphicsPipelineHandle
          (recordedInto
            (GraphicsRecordingDriver.allSucceed.allocated.getD
              FrameDriver.allSucceed.acquiredImageIndex VK_NULL_HANDLE)
            (CreateGraphicsCommandBuffers GraphicsRecordingDriver.allSucceed
              (CreateGraphicsPipeline GraphicsPipelineDriver.allSucceed
                Application.withThreeFramebuffers).app).calls)
          Application.withThreeFramebuffers.packedParticlesBufferHandle x ↔
        positionSsboOffset ≤ x ∧
          x < positionSsboOffset + positionSsboSize SPH_NUM_PARTICLES) :=
  ⟨fun _ => rfl, rfl, rfl, fun _ => rfl, by decide,
    (vertex_input_is_position_range GraphicsPipelineDriver.allSucceed
      GraphicsRecordingDriver.allSucceed FrameDriver.allSucceed
      Application.withThreeFramebuffers (fun _ => rfl) rfl rfl (fun _ => rfl)
      (by
        intro j k hj hk h
        have hj3 : j < 3 := hj
        have hk3 : k < 3 := hk
        interval_cases j <;> interval_cases k <;>
          first | rfl | exact absurd h (by decide))
      (by decide)).2.2.2.2.2.2.1⟩

/-! ## Compute descriptor set -/

theorem writeDescriptorSets_eq (N : Nat) (app : Application) :
    writeDescriptorSets N app =
      [ { dstSet := app.computeDescriptorSetHandle, dstBinding := 0, dstArrayElement := 0,
          descriptorCount := 1,
          descriptorType := VkDescriptorType.VK_DESCRIPTOR_TYPE_STORAGE_BUFFER,
          pBufferInfo := { buffer := app.packedParticlesBufferHandle,
                           offset := positionSsboOffset, range := positionSsboSize N } },
        { dstSet := app.computeDescriptorSetHandle, dstBinding := 1, dstArrayElement := 0,
          descriptorCount := 1,
          descriptorType := VkDescriptorType.VK_DESCRIPTOR_TYPE_STORAGE_BUFFER,
          pBufferInfo := { buffer := app.packedParticlesBufferHandle,
                           offset := velocitySsboOffset N, range := velocitySsboSize N } },
        { dstSet := app.computeDescriptorSetHandle, dstBinding := 2, dstArrayElement := 0,
          descriptorCount := 1,
          descriptorType := VkDescriptorType.VK_DESCRIPTOR_TYPE_STORAGE_BUFFER,
          pBufferInfo := { buffer := app.packedParticlesBufferHandle,
                           offset := forceSsboOffset N, range := forceSsboSize N } },
        { dstSet := app.computeDescriptorSetHandle, dstBinding := 3, dstArrayElement := 0,
          descriptorCount := 1,
          descriptorType := VkDescriptorType.VK_DESCRIPTOR_TYPE_STORAGE_BUFFER,
          pBufferInfo := { buffer := app.packedParticlesBufferHandle,
                           offset := densitySsboOffset N, range := densitySsboSize N } },
        { dstSet := app.computeDescriptorSetHandle, dstBinding := 4, dstArrayElement := 0,
          descriptorCount := 1,
          descriptorType := VkDescriptorType.VK_DESCRIPTOR_TYPE_STORAGE_BUFFER,
          pBufferInfo := { buffer := app.packedParticlesBufferHandle,
                           offset := pressureSsboOffset N, range := pressureSsboSize N } } ] :=
  rfl

/-- C16: when the descriptor set is allocated, `UpdateComputeDescriptorSets` passes
exactly five writes to `vkUpdateDescriptorSets`, all storage-buffer descriptors of the
packed buffer, and the write for binding `i` carries the offset and size of the `i`-th
array (0 position, 1 velocity, 2 force, 3 density, 4 pressure); when the packed size
`32 * N` fits in 64 bits no byte lies in two of the five ranges, each range lies inside
the buffer and together they cover it. -/
theorem descriptor_writes_match_layout (drv : DescriptorDriver) (N : Nat)
    (app : Application) (halloc : drv.vkAllocateDescriptorSets = VK_SUCCESS) :
    (UpdateComputeDescriptorSets drv N app).thrown = none ∧
    (UpdateComputeDescriptorSets drv N app).calls =
      [Call.vkAllocateDescriptorSets app.globalDescriptorPoolHandle
         [app.computeDescriptorSetLayoutHandle],
       Call.vkUpdateDescriptorSets
         (writeDescriptorSets N (UpdateComputeDescriptorSets drv N app).app)] ∧
    (writeDescriptorSets N (UpdateComputeDescriptorSets drv N app).app).length = 5 ∧
    (writeDescriptorSets N (UpdateComputeDescriptorSets drv N app).app).map
        (fun w => (w.dstBinding, w.pBufferInfo.offset, w.pBufferInfo.range)) =
      [(0, positionSsboOffset, positionSsboSize N),
       (1, velocitySsboOffset N, velocitySsboSize N),
       (2, forceSsboOffset N, forceSsboSize N),
       (3, densitySsboOffset N, densitySsboSize N),
       (4, pressureSsboOffset N, pressureSsboSize N)] ∧
    (∀ w ∈ writeDescriptorSets N (UpdateComputeDescriptorSets drv N app).app,
      w.descriptorType = VkDescriptorType.VK_DESCRIPTOR_TYPE_STORAGE_BUFFER ∧
      w.descriptorCount = 1 ∧ w.dstArrayElement = 0 ∧
      w.dstSet = drv.allocated ∧
      w.pBufferInfo.buffer = app.packedParticlesBufferHandle) ∧
    (32 * N < 2 ^ 64 →
      List.Pairwise
        (fun v w : VkWriteDescriptorSet => ∀ x : Nat,
          ¬ ((v.pBufferInfo.offset ≤ x ∧ x < v.pBufferInfo.offset + v.pBufferInfo.range) ∧
             (w.pBufferInfo.offset ≤ x ∧ x < w.pBufferInfo.offset + w.pBufferInfo.range)))
        (writeDescriptorSets N (UpdateComputeDescriptorSets drv N app).app) ∧
      (∀ w ∈ writeDescriptorSets N (UpdateComputeDescriptorSets drv N app).app,
        w.pBufferInfo.offset + w.pBufferInfo.range ≤ packedBufferSize N) ∧
      (∀ x : Nat, x < packedBufferSize N →
        ∃ w ∈ writeDescriptorSets N (UpdateComputeDescriptorSets drv N app).app,
          w.pBufferInfo.offset ≤ x ∧ x < w.pBufferInfo.offset + w.pBufferInfo.range)) := by
  have happ : (UpdateComputeDescriptorSets drv N app).app
      = { app with computeDescriptorSetHandle := drv.allocated } := by
    simp [UpdateComputeDescriptorSets, halloc]
  refine ⟨by simp [UpdateComputeDescriptorSets, halloc],
    by simp [UpdateComputeDescriptorSets, halloc], ?_, ?_, ?_, ?_⟩
  · rw [writeDescriptorSets_eq]; rfl
  · rw [writeDescriptorSets_eq]; rfl
  · rw [happ, writeDescriptorSets_eq]
    intro w hw
    simp only [List.mem_cons, List.mem_singleton, List.not_mem_nil, or_false] at hw
    rcases hw with rfl | rfl | rfl | rfl | rfl <;> exact ⟨rfl, rfl, rfl, rfl, rfl⟩
  · intro hfit
    obtain ⟨hp, hv, hf, hd, hq⟩ := ssbo_sizes_of_fit N hfit
    obtain ⟨h1, h2, h3, h4, h5⟩ := ssbo_offsets_of_fit N hfit
    rw [writeDescriptorSets_eq]
    unfold positionSsboOffset
    rw [hp, hv, hf, hd, hq, h1, h2, h3, h4, h5]
    refine ⟨?_, ?_, ?_⟩
    · simp only [List.pairwise_cons, List.mem_cons, List.mem_singleton, List.not_mem_nil,
        forall_eq_or_imp, forall_eq, List.Pairwise.nil, and_true, false_implies,
        implies_true]
      refine ⟨⟨?_, ?_, ?_, ?_⟩, ⟨?_, ?_, ?_⟩, ⟨?_, ?_⟩, ?_⟩ <;> intro x <;> omega
    · simp only [List.mem_cons, List.mem_singleton, List.not_mem_nil, or_false,
        forall_eq_or_imp, forall_eq]
      omega
    · intro x hx
      simp only [List.mem_cons, List.mem_singleton, List.not_mem_nil, or_false,
        exists_eq_or_imp, exists_eq_left]
      omega

/-- Witness for C16: the configured particle count on the object as constructed. -/
theorem descriptor_writes_match_layout_witness :
    DescriptorDriver.allSucceed.vkAllocateDescriptorSets = VK_SUCCESS ∧
    32 * SPH_NUM_PARTICLES < 2 ^ 64 ∧
    (writeDescriptorSets SPH_NUM_PARTICLES
      (UpdateComputeDescriptorSets DescriptorDriver.allSucceed SPH_NUM_PARTICLES
        Application.constructed).app).length = 5 ∧
    (∀ x : Nat, x < packedBufferSize SPH_NUM_PARTICLES →
      ∃ w ∈ writeDescriptorSets SPH_NUM_PARTICLES
          (UpdateComputeDescriptorSets DescriptorDriver.allSucceed SPH_NUM_PARTICLES
            Application.constructed).app,
        w.pBufferInfo.offset ≤ x ∧ x < w.pBufferInfo.offset + w.pBufferInfo.range) :=
  ⟨rfl, by decide,
    (descriptor_writes_match_layout DescriptorDriver.allSucceed SPH_NUM_PARTICLES
      Application.constructed rfl).2.2.1,
    ((descriptor_writes_match_layout DescriptorDriver.allSucceed SPH_NUM_PARTICLES
      Application.constructed rfl).2.2.2.2.2 (by decide)).2.2⟩

/-! ## Discarded return codes -/

/-- C17 (what the code does): `Render` throws exactly when the graphics `vkQueueSubmit`
fails, whatever `vkAcquireNextImageKHR`, `vkQueuePresentKHR` and `vkQueueWaitIdle`
return; and with the named call returning a failure code and all others succeeding,
`CreateComputeCommandBuffer` (`vkEndCommandBuffer`), `Render` (acquire, present,
idle-wait), `CreateBuffers` (`vkCreateBuffer`, `vkBindBufferMemory`) and
`SetInitialParticleData` (`vkCreateBuffer`, `vkBindBufferMemory`) all return normally;
with `vkMapMemory` failing `SetInitialParticleData` throws nothing either: it goes on to
`std::memset` with the null `mappedMemory` and stops there. -/
theorem discarded_failures_return_normally :
    (∀ (d : FrameDriver) (app : Application),
      (Render d app).thrown = none ↔ d.graphicsSubmit = VK_SUCCESS) ∧
    (∀ (d : RecordingDriver) (app : Application),
      (CreateComputeCommandBuffer d app).thrown = none ↔
        (d.vkAllocateCommandBuffers = VK_SUCCESS ∧ d.vkBeginCommandBuffer = VK_SUCCESS)) ∧
    (CreateComputeCommandBuffer { RecordingDriver.allSucceed with vkEndCommandBuffer := -1 }
      Application.constructed).thrown = none ∧
    (Render { FrameDriver.allSucceed with acquireNextImage := -4 }
      Application.constructed).thrown = none ∧
    (Render { FrameDriver.allSucceed with present := -4 }
      Application.constructed).thrown = none ∧
    (Render { FrameDriver.allSucceed with waitIdle := -4 }
      Application.constructed).thrown = none ∧
    (CreateBuffers { BufferDriver.allSucceed with vkCreateBuffer := -2 } SPH_NUM_PARTICLES
      Application.constructed).thrown = none ∧
    (CreateBuffers { BufferDriver.allSucceed with vkBindBufferMemory := -2 }
      SPH_NUM_PARTICLES Application.constructed).thrown = none ∧
    ((SetInitialParticleData { StagingDriver.allSucceed with vkCreateBuffer := -2 }
        SPH_NUM_PARTICLES Application.constructed).thrown = none ∧
      (SetInitialParticleData { StagingDriver.allSucceed with vkCreateBuffer := -2 }
        SPH_NUM_PARTICLES Application.constructed).crashed = false) ∧
    ((SetInitialParticleData { StagingDriver.allSucceed with vkBindBufferMemory := -2 }
        SPH_NUM_PARTICLES Application.constructed).thrown = none ∧
      (SetInitialParticleData { StagingDriver.allSucceed with vkBindBufferMemory := -2 }
        SPH_NUM_PARTICLES Application.constructed).crashed = false) ∧
    ((SetInitialParticleData { StagingDriver.allSucceed with vkMapMemory := -5 }
        SPH_NUM_PARTICLES Application.constructed).thrown = none ∧
      (SetInitialParticleData { StagingDriver.allSucceed with vkMapMemory := -5 }
        SPH_NUM_PARTICLES Application.constructed).crashed = true ∧
      (SetInitialParticleData { StagingDriver.allSucceed with vkMapMemory := -5 }
        SPH_NUM_PARTICLES Application.constructed).calls.getLast?
        = some (Call.memset 0 640000)) := by
  refine ⟨?_, ?_, by decide, by decide, by decide, by decide, by decide, by decide,
    by decide, by decide, by decide⟩
  · intro d app
    by_cases hg : d.graphicsSubmit = VK_SUCCESS <;> simp [Render, hg]
  · intro d app
    by_cases ha : d.vkAllocateCommandBuffers = VK_SUCCESS <;>
      by_cases hb : d.vkBeginCommandBuffer = VK_SUCCESS <;>
      simp [CreateComputeCommandBuffer, ha, hb]

/-! ## Release of the staging resources -/

/-- C18 (what the code does): `SetInitialParticleData` makes a releasing call exactly when
it returns normally (it neither throws nor stops in a write through the null
`mappedMemory`); when `vkAllocateMemory` fails it throws with the staging buffer
created and not destroyed; when `vkQueueSubmit` fails it throws with the staging buffer
and the staging memory created and neither released; when every call succeeds it ends
by freeing the copy command buffer, freeing the staging memory and destroying the staging
buffer. -/
theorem staging_released_only_on_normal_return :
    (∀ (drv : StagingDriver) (N : Nat) (app : Application),
      (SetInitialParticleData drv N app).calls.filter Call.isDestroy = [] ↔
        ((SetInitialParticleData drv N app).thrown ≠ none ∨
          (SetInitialParticleData drv N app).crashed = true)) ∧
    ((SetInitialParticleData { StagingDriver.allSucceed with vkAllocateMemory := -2 }
        SPH_NUM_PARTICLES Application.constructed).thrown = some "memory allocation failed" ∧
      Call.vkCreateBuffer 640000 [VkBufferUsageFlagBits.VK_BUFFER_USAGE_TRANSFER_SRC_BIT]
        ∈ (SetInitialParticleData { StagingDriver.allSucceed with vkAllocateMemory := -2 }
            SPH_NUM_PARTICLES Application.constructed).calls ∧
      Call.vkDestroyBuffer 5
        ∉ (SetInitialParticleData { StagingDriver.allSucceed with vkAllocateMemory := -2 }
            SPH_NUM_PARTICLES Application.constructed).calls) ∧
    ((SetInitialParticleData { StagingDriver.allSucceed with vkQueueSubmit := -4 }
        SPH_NUM_PARTICLES Application.constructed).thrown
        = some "command buffer submission failed" ∧
      Call.vkAllocateMemory 640000 (some 1)
        ∈ (SetInitialParticleData { StagingDriver.allSucceed with vkQueueSubmit := -4 }
            SPH_NUM_PARTICLES Application.constructed).calls ∧
      Call.vkFreeMemory 6
        ∉ (SetInitialParticleData { StagingDriver.allSucceed with vkQueueSubmit := -4 }
            SPH_NUM_PARTICLES Application.constructed).calls ∧
      Call.vkDestroyBuffer 5
        ∉ (SetInitialParticleData { StagingDriver.allSucceed with vkQueueSubmit := -4 }
            SPH_NUM_PARTICLES Application.constructed).calls) ∧
    ((SetInitialParticleData StagingDriver.allSucceed SPH_NUM_PARTICLES
        Application.constructed).thrown = none ∧
      (SetInitialParticleData StagingDriver.allSucceed SPH_NUM_PARTICLES
        Application.constructed).calls.filter Call.isDestroy =
        [Call.vkFreeCommandBuffers 0 [8], Call.vkFreeMemory 6, Call.vkDestroyBuffer 5]) := by
  refine ⟨?_, by decide, by decide, by decide⟩
  intro drv N app
  by_cases h1 : drv.vkAllocateMemory = VK_SUCCESS
  swap
  · simp [SetInitialParticleData, h1, Call.isDestroy]
  by_cases hm : drv.vkMapMemory = VK_SUCCESS
  on_goal 2 =>
    by_cases hp : 0 < packedBufferSize N
    on_goal 1 => simp [SetInitialParticleData, h1, hm, hp, Call.isDestroy]
    by_cases hq : 0 < positionSsboSize N
    on_goal 1 => simp [SetInitialParticleData, h1, hm, hp, hq, Call.isDestroy]
  all_goals
    by_cases h2 : drv.vkAllocateCommandBuffers = VK_SUCCESS
    · by_cases h3 : drv.vkBeginCommandBuffer = VK_SUCCESS
      · by_cases h4 : drv.vkEndCommandBuffer = VK_SUCCESS
        · by_cases h5 : drv.vkQueueSubmit = VK_SUCCESS
          · by_cases h6 : drv.vkQueueWaitIdle = VK_SUCCESS
            · simp [SetInitialParticleData, Call.isDestroy, *]
            · simp [SetInitialParticleData, Call.isDestroy, *]
          · simp [SetInitialParticleData, Call.isDestroy, *]
        · simp [SetInitialParticleData, Call.isDestroy, *]
      · simp [SetInitialParticleData, Call.isDestroy, *]
    · simp [SetInitialParticleData, Call.isDestroy, *]

/-! ## Teardown -/

theorem MainLoop_app (d : FrameDriver) (app : Application) :
    ∃ (p w : Bool) (f i : Nat) (g : List Handle),
      (MainLoop d app).app =
        { app with paused := p, windowShouldClose := w, frameNumber := f, imageIndex := i,
                   graphicsSubmitInfo_pCommandBuffers := g } := by
  obtain ⟨p, w, hpoll⟩ := pollEvents_touches_flags_only d.keyEvents app
  cases p <;> by_cases hc : d.computeSubmit = VK_SUCCESS <;>
    by_cases hg : d.graphicsSubmit = VK_SUCCESS <;>
    simp only [MainLoop, glfwPollEvents, Outcome.andThen, Outcome.ok, RunSimulation, Render,
      hc, hg, hpoll, Bool.not_true, Bool.not_false, if_true, if_false, ne_eq,
      not_true_eq_false, not_false_eq_true, Bool.false_eq_true] <;>
    exact ⟨_, _, _, _, _, rfl⟩

theorem MainLoop_waits (d : FrameDriver) (app : Application) :
    ∀ c ∈ (MainLoop d app).calls,
      c ≠ Call.vkDeviceWaitIdle ∧ Call.isDestroy c = false ∧
      (Call.isWait c = true → c = Call.vkQueueWaitIdle app.presentationQueueHandle) := by
  obtain ⟨p, w, hpoll⟩ := pollEvents_touches_flags_only d.keyEvents app
  cases p <;> by_cases hc : d.computeSubmit = VK_SUCCESS <;>
    by_cases hg : d.graphicsSubmit = VK_SUCCESS <;>
    simp [MainLoop, glfwPollEvents, Outcome.andThen, Outcome.ok, RunSimulation, Render,
      hc, hg, hpoll, Call.isWait, Call.isDestroy]

theorem Run_calls (drvs : List FrameDriver) (app : Application) (o : Outcome)
    (hrun : Run drvs app = some o) :
    (∃ (p w : Bool) (f i : Nat) (g : List Handle),
      o.app =
        { app with paused := p, windowShouldClose := w, frameNumber := f, imageIndex := i,
                   graphicsSubmitInfo_pCommandBuffers := g }) ∧
    ∀ c ∈ o.calls,
      c ≠ Call.vkDeviceWaitIdle ∧ Call.isDestroy c = false ∧
      (Call.isWait c = true → c = Call.vkQueueWaitIdle app.presentationQueueHandle) := by
  induction drvs generalizing app o with
  | nil =>
    unfold Run at hrun
    split_ifs at hrun
    simp only [Option.some.injEq] at hrun
    subst hrun
    exact ⟨⟨_, _, _, _, _, rfl⟩, by intro c hc; simp [Outcome.ok] at hc⟩
  | cons d ds ih =>
    unfold Run at hrun
    split_ifs at hrun
    · simp only [Option.some.injEq] at hrun
      subst hrun
      exact ⟨⟨_, _, _, _, _, rfl⟩, by intro c hc; simp [Outcome.ok] at hc⟩
    · obtain ⟨p, w, f, i, g, happ⟩ := MainLoop_app d app
      have hframe := MainLoop_waits d app
      cases hthrown : (MainLoop d app).thrown with
      | some e =>
        simp only [hthrown, Option.some.injEq] at hrun
        subst hrun
        exact ⟨⟨p, w, f, i, g, happ⟩, hframe⟩
      | none =>
        simp only [hthrown, MainLoop_crashed, Option.map_eq_some'] at hrun
        obtain ⟨rest, hrest, ho⟩ := hrun
        obtain ⟨⟨p2, w2, f2, i2, g2, happ2⟩, hcalls⟩ := ih (MainLoop d app).app rest hrest
        subst ho
        refine ⟨⟨p2, w2, f2, i2, g2, by simp only [happ2, happ]⟩, ?_⟩
        intro c hc
        rcases List.mem_append.mp hc with h | h
        · exact hframe c h
        · have := hcalls c h
          rw [happ] at this
          exact this

/-- C19 (what the code does): no run of the frame loop followed by the destructor calls
`vkDeviceWaitIdle`; the only waits are the idle-waits on the presentation queue inside the
frames, and the destructor makes six calls, none of them a wait, starting with
`vkDestroySwapchainKHR` and destroying the device third.  With the queues of
`GetDeviceQueues` (handles 10, 11, 12), two frames, the second with the escape key
pressed, end the loop normally, and when the destructor destroys the device the two
compute submissions on queue 11 are covered by no wait.  The upload in
`SetInitialParticleData`, by contrast, waits for queue 11 to be idle before it releases
what the submitted copy uses. -/
theorem teardown_without_device_idle_wait :
    (∀ (drvs : List FrameDriver) (app : Application) (o : Outcome), Run drvs app = some o →
      (∀ c ∈ o.calls ++ (Application.destructor o.app).calls, c ≠ Call.vkDeviceWaitIdle) ∧
      (∀ c ∈ o.calls, Call.isWait c = true →
        c = Call.vkQueueWaitIdle app.presentationQueueHandle) ∧
      (Application.destructor o.app).calls =
        [Call.vkDestroySwapchainKHR app.swapchainHandle,
         Call.vkDestroySurfaceKHR app.surfaceHandle,
         Call.vkDestroyDevice app.logicalDeviceHandle,
         Call.vkDestroyInstance app.instanceHandle,
         Call.glfwDestroyWindow, Call.glfwTerminate]) ∧
    (Run [FrameDriver.allSucceed, { FrameDriver.allSucceed with keyEvents := [escapePress] }]
        (GetDeviceQueues (fun _ index => 10 + index) Application.constructed).app).map
      (fun o => (o.thrown, o.crashed,
        (o.calls ++ (Application.destructor o.app).calls).contains Call.vkDeviceWaitIdle,
        (Application.destructor o.app).calls.head?,
        (coverage (o.calls ++ (Application.destructor o.app).calls)).uncovered)) =
      some (none, false, false, some (Call.vkDestroySwapchainKHR 0),
        [Call.vkQueueSubmit 11
          [{ pWaitSemaphores := [], pWaitDstStageMask := [], pCommandBuffers := [0],
             pSignalSemaphores := [] }] 0,
         Call.vkQueueSubmit 11
          [{ pWaitSemaphores := [], pWaitDstStageMask := [], pCommandBuffers := [0],
             pSignalSemaphores := [] }] 0]) ∧
    ((SetInitialParticleData StagingDriver.allSucceed SPH_NUM_PARTICLES
        (GetDeviceQueues (fun _ index => 10 + index) Application.constructed).app
      ).calls.dropWhile fun c => !Call.isWait c) =
      [Call.vkQueueWaitIdle 11, Call.vkFreeCommandBuffers 0 [8], Call.vkFreeMemory 6,
       Call.vkDestroyBuffer 5] := by
  refine ⟨?_, by decide, by decide⟩
  intro drvs app o hrun
  obtain ⟨⟨p, w, f, i, g, happ⟩, hcalls⟩ := Run_calls drvs app o hrun
  have hdestroy : (Application.destructor o.app).calls =
      [Call.vkDestroySwapchainKHR app.swapchainHandle,
       Call.vkDestroySurfaceKHR app.surfaceHandle,
       Call.vkDestroyDevice app.logicalDeviceHandle,
       Call.vkDestroyInstance app.instanceHandle,
       Call.glfwDestroyWindow, Call.glfwTerminate] := by
    rw [happ]
    simp [Application.destructor, destroyVulkan, destroyWindow, Outcome.andThen]
  refine ⟨?_, fun c hc => (hcalls c hc).2.2, hdestroy⟩
  intro c hc
  rcases List.mem_append.mp hc with h | h
  · exact (hcalls c h).1
  · rw [hdestroy] at h
    simp only [List.mem_cons, List.mem_singleton, List.not_mem_nil, or_false] at h
    rcases h with rfl | rfl | rfl | rfl | rfl | rfl <;> exact Call.noConfusion

/-- C20 (what the code does): the destructor makes six calls, none of which destroys a
buffer or frees device memory, and destroys the logical device; `CreateBuffers` creates
the packed buffer once and allocates its memory once; in a run of `CreateBuffers`, two
frames and the destructor, the buffer (handle 3) is never destroyed and its memory
(handle 4) never freed. -/
theorem packed_buffer_not_released_at_shutdown :
    (∀ app : Application,
      (Application.destructor app).calls =
        [Call.vkDestroySwapchainKHR app.swapchainHandle,
         Call.vkDestroySurfaceKHR app.surfaceHandle,
         Call.vkDestroyDevice app.logicalDeviceHandle,
         Call.vkDestroyInstance app.instanceHandle,
         Call.glfwDestroyWindow, Call.glfwTerminate]) ∧
    (∀ (app : Application) (h : Handle),
      Call.vkDestroyBuffer h ∉ (Application.destructor app).calls ∧
      Call.vkFreeMemory h ∉ (Application.destructor app).calls) ∧
    ((CreateBuffers BufferDriver.allSucceed SPH_NUM_PARTICLES Application.constructed).calls =
        [Call.vkCreateBuffer 640000
           [VkBufferUsageFlagBits.VK_BUFFER_USAGE_VERTEX_BUFFER_BIT,
            VkBufferUsageFlagBits.VK_BUFFER_USAGE_STORAGE_BUFFER_BIT,
            VkBufferUsageFlagBits.VK_BUFFER_USAGE_TRANSFER_DST_BIT],
         Call.vkGetBufferMemoryRequirements 3,
         Call.vkGetPhysicalDeviceMemoryProperties,
         Call.vkAllocateMemory 640000 (some 0),
         Call.vkBindBufferMemory 3 4 0] ∧
      (CreateBuffers BufferDriver.allSucceed SPH_NUM_PARTICLES
        Application.constructed).app.packedParticlesBufferHandle = 3 ∧
      (CreateBuffers BufferDriver.allSucceed SPH_NUM_PARTICLES
        Application.constructed).app.packedParticlesMemoryHandle = 4) ∧
    (Run [FrameDriver.allSucceed, { FrameDriver.allSucceed with keyEvents := [escapePress] }]
        (CreateBuffers BufferDriver.allSucceed SPH_NUM_PARTICLES
          Application.constructed).app).map
      (fun o => (o.thrown,
        (o.calls ++ (Application.destructor o.app).calls).contains (Call.vkDestroyBuffer 3),
        (o.calls ++ (Application.destructor o.app).calls).contains (Call.vkFreeMemory 4),
        (o.calls ++ (Application.destructor o.app).calls).contains (Call.vkDestroyDevice 0))) =
      some (none, false, false, true) := by
  refine ⟨?_, ?_, by decide, by decide⟩
  · intro app
    simp [Application.destructor, destroyVulkan, destroyWindow, Outcome.andThen]
  · intro app h
    simp [Application.destructor, destroyVulkan, destroyWindow, Outcome.andThen]

/-! ## What the idle-wait of a frame covers -/

/-- C21 (what the code does): the only wait of a `MainLoop` iteration is the idle-wait on
the presentation queue, the compute submission signals and waits on no semaphore and is
given no fence, and `GetDeviceQueues` takes the compute queue from queue index 1 and the
presentation queue from queue index 2.  With the queues of `GetDeviceQueues` (handles 10,
11, 12) an unpaused frame in which every call succeeds returns after the seven calls
listed, the presentation queue 12 being the only queue waited idle, and its compute
submission on queue 11 is covered neither by a wait on its queue nor by a semaphore.  The
upload in `SetInitialParticleData`, by contrast, follows its submission to queue 11 by an
idle-wait on queue 11. -/
theorem compute_submission_not_covered :
    (∀ (d : FrameDriver) (app : Application), ∀ c ∈ (MainLoop d app).calls,
      c ≠ Call.vkDeviceWaitIdle ∧
      (Call.isWait c = true → c = Call.vkQueueWaitIdle app.presentationQueueHandle)) ∧
    (∀ app : Application,
      app.computeSubmitInfo.pSignalSemaphores = [] ∧
      app.computeSubmitInfo.pWaitSemaphores = [] ∧
      (RunSimulation FrameDriver.allSucceed app).calls =
        [Call.vkQueueSubmit app.computeQueueHandle [app.computeSubmitInfo] VK_NULL_HANDLE]) ∧
    (∀ (queueOf : Nat → Nat → Handle) (app0 : Application),
      (GetDeviceQueues queueOf app0).app.computeQueueHandle =
        queueOf app0.graphicsPresentationComputeQueueFamilyIndex 1 ∧
      (GetDeviceQueues queueOf app0).app.presentationQueueHandle =
        queueOf app0.graphicsPresentationComputeQueueFamilyIndex 2) ∧
    (MainLoop FrameDriver.allSucceed
      (GetDeviceQueues (fun _ index => 10 + index) Application.constructed).app).thrown
      = none ∧
    (MainLoop FrameDriver.allSucceed
      (GetDeviceQueues (fun _ index => 10 + index) Application.constructed).app).calls =
      [Call.glfwPollEvents,
       Call.vkQueueSubmit 11
        [{ pWaitSemaphores := [], pWaitDstStageMask := [], pCommandBuffers := [0],
           pSignalSemaphores := [] }] 0,
       Call.vkAcquireNextImageKHR 0 UINT64_MAX 0 0,
       Call.vkQueueSubmit 10
        [{ pWaitSemaphores := [0],
           pWaitDstStageMask :=
             [[VkPipelineStageFlagBits.VK_PIPELINE_STAGE_COLOR_ATTACHMENT_OUTPUT_BIT]],
           pCommandBuffers := [0], pSignalSemaphores := [0] }] 0,
       Call.vkQueuePresentKHR 12
        { pWaitSemaphores := [0], pSwapchains := [0], pImageIndices := [0] },
       Call.vkQueueWaitIdle 12,
       Call.glfwSetWindowTitle] ∧
    (coverage (MainLoop FrameDriver.allSucceed
      (GetDeviceQueues (fun _ index => 10 + index) Application.constructed).app).calls
      ).waitedQueues = [12] ∧
    (coverage (MainLoop FrameDriver.allSucceed
      (GetDeviceQueues (fun _ index => 10 + index) Application.constructed).app).calls
      ).uncovered =
      [Call.vkQueueSubmit 11
        [{ pWaitSemaphores := [], pWaitDstStageMask := [], pCommandBuffers := [0],
           pSignalSemaphores := [] }] 0] ∧
    ((SetInitialParticleData StagingDriver.allSucceed SPH_NUM_PARTICLES
        (GetDeviceQueues (fun _ index => 10 + index) Application.constructed).app
      ).calls.filter fun c => Call.isSubmit c || Call.isWait c) =
      [Call.vkQueueSubmit 11
        [{ pWaitSemaphores := [], pWaitDstStageMask := [], pCommandBuffers := [8],
           pSignalSemaphores := [] }] 0,
       Call.vkQueueWaitIdle 11] := by
  refine ⟨fun d app c hc => ⟨(MainLoop_waits d app c hc).1, (MainLoop_waits d app c hc).2.2⟩,
    fun app => ⟨rfl, rfl, rfl⟩, fun _ _ => ⟨rfl, rfl⟩, by decide, by decide, by decide,
    by decide, by decide⟩

/-! ## Inter-stage barriers -/

/-- C22: in the recorded compute sequence the commands after dispatch 1 and after
dispatch 2 (positions 3 and 6, the dispatches being at 2 and 5) are pipeline barriers
whose source and destination stage masks are both exactly the compute-shader bit, with no
memory barrier attached; the compute-shader stage is the only stage in the scope of that
mask. -/
theorem inter_stage_barriers_are_compute_to_compute (drv : RecordingDriver)
    (app : Application) (halloc : drv.vkAllocateCommandBuffers = VK_SUCCESS)
    (hbegin : drv.vkBeginCommandBuffer = VK_SUCCESS) :
    (recordedInto (CreateComputeCommandBuffer drv app).app.computeCommandBufferHandle
        (CreateComputeCommandBuffer drv app).calls)[2]?.map Cmd.kind
      = some CmdKind.dispatch ∧
    (recordedInto (CreateComputeCommandBuffer drv app).app.computeCommandBufferHandle
        (CreateComputeCommandBuffer drv app).calls)[3]?
      = some (Cmd.vkCmdPipelineBarrier
          [VkPipelineStageFlagBits.VK_PIPELINE_STAGE_COMPUTE_SHADER_BIT]
          [VkPipelineStageFlagBits.VK_PIPELINE_STAGE_COMPUTE_SHADER_BIT] 0 0 0) ∧
    (recordedInto (CreateComputeCommandBuffer drv app).app.computeCommandBufferHandle
        (CreateComputeCommandBuffer drv app).calls)[5]?.map Cmd.kind
      = some CmdKind.dispatch ∧
    (recordedInto (CreateComputeCommandBuffer drv app).app.computeCommandBufferHandle
        (CreateComputeCommandBuffer drv app).calls)[6]?
      = some (Cmd.vkCmdPipelineBarrier
          [VkPipelineStageFlagBits.VK_PIPELINE_STAGE_COMPUTE_SHADER_BIT]
          [VkPipelineStageFlagBits.VK_PIPELINE_STAGE_COMPUTE_SHADER_BIT] 0 0 0) ∧
    (∀ stage : VkPipelineStageFlagBits,
      stageInScope [VkPipelineStageFlagBits.VK_PIPELINE_STAGE_COMPUTE_SHADER_BIT] stage = true
        ↔ stage = VkPipelineStageFlagBits.VK_PIPELINE_STAGE_COMPUTE_SHADER_BIT) := by
  obtain ⟨_, _, hrec⟩ := CreateComputeCommandBuffer_of_success drv app halloc hbegin
  rw [hrec]
  refine ⟨rfl, rfl, rfl, rfl, ?_⟩
  intro stage
  cases stage <;> decide

/-- Witness for C22: the object as constructed and a driver whose calls all succeed. -/
theorem inter_stage_barriers_are_compute_to_compute_witness :
    RecordingDriver.allSucceed.vkAllocateCommandBuffers = VK_SUCCESS ∧
    RecordingDriver.allSucceed.vkBeginCommandBuffer = VK_SUCCESS ∧
    (recordedInto
        (CreateComputeCommandBuffer RecordingDriver.allSucceed
          Application.constructed).app.computeCommandBufferHandle
        (CreateComputeCommandBuffer RecordingDriver.allSucceed
          Application.constructed).calls)[3]?
      = some (Cmd.vkCmdPipelineBarrier
          [VkPipelineStageFlagBits.VK_PIPELINE_STAGE_COMPUTE_SHADER_BIT]
          [VkPipelineStageFlagBits.VK_PIPELINE_STAGE_COMPUTE_SHADER_BIT] 0 0 0) :=
  ⟨rfl, rfl,
    (inter_stage_barriers_are_compute_to_compute RecordingDriver.allSucceed
      Application.constructed rfl rfl).2.1⟩

/-! ## Order of submission, wait and release in the staging upload -/

/-- C23: when `vkMapMemory` and every tested call of `SetInitialParticleData` succeed, the
function returns, the copy command buffer is submitted exactly once, to `computeQueueHandle`, and
before the idle-wait; no releasing call is made before the idle-wait; and from the
idle-wait on the calls are: idle-wait on `computeQueueHandle`, free the copy command
buffer, free the staging memory, destroy the staging buffer. -/
theorem staging_release_follows_idle_wait (drv : StagingDriver) (N : Nat)
    (app : Application)
    (hmemory : drv.vkAllocateMemory = VK_SUCCESS)
    (hmap : drv.vkMapMemory = VK_SUCCESS)
    (hallocate : drv.vkAllocateCommandBuffers = VK_SUCCESS)
    (hbegin : drv.vkBeginCommandBuffer = VK_SUCCESS)
    (hend : drv.vkEndCommandBuffer = VK_SUCCESS)
    (hsubmit : drv.vkQueueSubmit = VK_SUCCESS)
    (hwait : drv.vkQueueWaitIdle = VK_SUCCESS) :
    (SetInitialParticleData drv N app).thrown = none ∧
    (SetInitialParticleData drv N app).crashed = false ∧
    (SetInitialParticleData drv N app).calls.filter Call.isSubmit =
      [Call.vkQueueSubmit app.computeQueueHandle
        [{ pWaitSemaphores := [], pWaitDstStageMask := [],
           pCommandBuffers := [drv.copyCommandBuffer], pSignalSemaphores := [] }]
        VK_NULL_HANDLE] ∧
    ((SetInitialParticleData drv N app).calls.takeWhile fun c => !Call.isWait c).filter
        Call.isSubmit =
      [Call.vkQueueSubmit app.computeQueueHandle
        [{ pWaitSemaphores := [], pWaitDstStageMask := [],
           pCommandBuffers := [drv.copyCommandBuffer], pSignalSemaphores := [] }]
        VK_NULL_HANDLE] ∧
    ((SetInitialParticleData drv N app).calls.takeWhile fun c => !Call.isWait c).filter
        Call.isDestroy = [] ∧
    ((SetInitialParticleData drv N app).calls.dropWhile fun c => !Call.isWait c) =
      [Call.vkQueueWaitIdle app.computeQueueHandle,
       Call.vkFreeCommandBuffers app.computeCommandPoolHandle [drv.copyCommandBuffer],
       Call.vkFreeMemory drv.stagingMemory,
       Call.vkDestroyBuffer
         (if drv.vkCreateBuffer = VK_SUCCESS then drv.stagingBuffer else VK_NULL_HANDLE)] := by
  refine ⟨?_, ?_, ?_, ?_, ?_, ?_⟩ <;>
    simp [SetInitialParticleData, hmemory, hmap, hallocate, hbegin, hend, hsubmit, hwait,
      Call.isSubmit, Call.isWait, Call.isDestroy]

/-- Witness for C23: the object as constructed and a driver whose calls all succeed. -/
theorem staging_release_follows_idle_wait_witness :
    StagingDriver.allSucceed.vkAllocateMemory = VK_SUCCESS ∧
    StagingDriver.allSucceed.vkMapMemory = VK_SUCCESS ∧
    StagingDriver.allSucceed.vkAllocateCommandBuffers = VK_SUCCESS ∧
    StagingDriver.allSucceed.vkBeginCommandBuffer = VK_SUCCESS ∧
    StagingDriver.allSucceed.vkEndCommandBuffer = VK_SUCCESS ∧
    StagingDriver.allSucceed.vkQueueSubmit = VK_SUCCESS ∧
    StagingDriver.allSucceed.vkQueueWaitIdle = VK_SUCCESS ∧
    (SetInitialParticleData StagingDriver.allSucceed SPH_NUM_PARTICLES
      Application.constructed).thrown = none ∧
    ((SetInitialParticleData StagingDriver.allSucceed SPH_NUM_PARTICLES
      Application.constructed).calls.takeWhile fun c => !Call.isWait c).filter
        Call.isDestroy = [] :=
  ⟨rfl, rfl, rfl, rfl, rfl, rfl, rfl,
    (staging_release_follows_idle_wait StagingDriver.allSucceed SPH_NUM_PARTICLES
      Application.constructed rfl rfl rfl rfl rfl rfl rfl).1,
    (staging_release_follows_idle_wait StagingDriver.allSucceed SPH_NUM_PARTICLES
      Application.constructed rfl rfl rfl rfl rfl rfl rfl).2.2.2.2.1⟩

/-! ## The copy region of the staging upload -/

/-- C24 (what the code does): when `SetInitialParticleData` gets as far as recording (the
allocations and the begin succeed and it has not stopped in a write through the null
`mappedMemory`), it records one copy whose region starts at offset 0 in both buffers and
whose size is the size reported in the staging buffer's memory requirements, whatever
that is, and otherwise it records nothing; when the driver reports 643072 bytes for the
640000-byte staging buffer, the recorded region is 643072 bytes long, while the staging
buffer, the zero-filled prefix and the destination packed buffer are 640000 bytes. -/
theorem copy_region_size_is_requirements_size :
    (∀ (drv : StagingDriver) (N : Nat) (app : Application),
      recordedInto drv.copyCommandBuffer (SetInitialParticleData drv N app).calls =
        if drv.vkAllocateMemory = VK_SUCCESS
            ∧ (drv.vkMapMemory = VK_SUCCESS
              ∨ (packedBufferSize N = 0 ∧ positionSsboSize N = 0))
            ∧ drv.vkAllocateCommandBuffers = VK_SUCCESS
            ∧ drv.vkBeginCommandBuffer = VK_SUCCESS then
          [Cmd.vkCmdCopyBuffer
            (if drv.vkCreateBuffer = VK_SUCCESS then drv.stagingBuffer else VK_NULL_HANDLE)
            app.packedParticlesBufferHandle
            [{ srcOffset := 0, dstOffset := 0, size := drv.memoryRequirements.size }]]
        else []) ∧
    packedBufferSize SPH_NUM_PARTICLES = 640000 ∧
    packedBufferSize SPH_NUM_PARTICLES ≤ StagingDriver.paddedRequirements.memoryRequirements.size ∧
    (SetInitialParticleData StagingDriver.paddedRequirements SPH_NUM_PARTICLES
      (CreateBuffers BufferDriver.allSucceed SPH_NUM_PARTICLES
        Application.constructed).app).thrown = none ∧
    (SetInitialParticleData StagingDriver.paddedRequirements SPH_NUM_PARTICLES
      (CreateBuffers BufferDriver.allSucceed SPH_NUM_PARTICLES
        Application.constructed).app).crashed = false ∧
    recordedInto 8
      (SetInitialParticleData StagingDriver.paddedRequirements SPH_NUM_PARTICLES
        (CreateBuffers BufferDriver.allSucceed SPH_NUM_PARTICLES
          Application.constructed).app).calls =
      [Cmd.vkCmdCopyBuffer 5 3 [{ srcOffset := 0, dstOffset := 0, size := 643072 }]] ∧
    packedBufferSize SPH_NUM_PARTICLES < 643072 ∧
    Call.vkCreateBuffer 640000 [VkBufferUsageFlagBits.VK_BUFFER_USAGE_TRANSFER_SRC_BIT]
      ∈ (SetInitialParticleData StagingDriver.paddedRequirements SPH_NUM_PARTICLES
          (CreateBuffers BufferDriver.allSucceed SPH_NUM_PARTICLES
            Application.constructed).app).calls ∧
    Call.memset 0 640000
      ∈ (SetInitialParticleData StagingDriver.paddedRequirements SPH_NUM_PARTICLES
          (CreateBuffers BufferDriver.allSucceed SPH_NUM_PARTICLES
            Application.constructed).app).calls ∧
    Call.vkCreateBuffer 640000
        [VkBufferUsageFlagBits.VK_BUFFER_USAGE_VERTEX_BUFFER_BIT,
         VkBufferUsageFlagBits.VK_BUFFER_USAGE_STORAGE_BUFFER_BIT,
         VkBufferUsageFlagBits.VK_BUFFER_USAGE_TRANSFER_DST_BIT]
      ∈ (CreateBuffers BufferDriver.allSucceed SPH_NUM_PARTICLES
          Application.constructed).calls := by
  refine ⟨?_, by decide, by decide, by decide, by decide, by decide, by decide, by decide,
    by decide, by decide⟩
  intro drv N app
  by_cases h1 : drv.vkAllocateMemory = VK_SUCCESS
  swap
  · simp [SetInitialParticleData, h1, recordedInto]
  by_cases hm : drv.vkMapMemory = VK_SUCCESS
  on_goal 2 =>
    by_cases hp : 0 < packedBufferSize N
    on_goal 1 =>
      have hp2 : packedBufferSize N ≠ 0 := by omega
      simp [SetInitialParticleData, h1, hm, hp, hp2, recordedInto]
    by_cases hq : 0 < positionSsboSize N
    on_goal 1 =>
      have hq2 : positionSsboSize N ≠ 0 := by omega
      simp [SetInitialParticleData, h1, hm, hp, hq, hq2, recordedInto]
    have hp0 : packedBufferSize N = 0 := by omega
    have hq0 : positionSsboSize N = 0 := by omega
  all_goals
    by_cases h2 : drv.vkAllocateCommandBuffers = VK_SUCCESS
    · by_cases h3 : drv.vkBeginCommandBuffer = VK_SUCCESS
      · by_cases h4 : drv.vkEndCommandBuffer = VK_SUCCESS
        · by_cases h5 : drv.vkQueueSubmit = VK_SUCCESS
          · by_cases h6 : drv.vkQueueWaitIdle = VK_SUCCESS
            · simp [SetInitialParticleData, recordedInto, *]
            · simp [SetInitialParticleData, recordedInto, *]
          · simp [SetInitialParticleData, recordedInto, *]
        · simp [SetInitialParticleData, recordedInto, *]
      · simp [SetInitialParticleData, recordedInto, *]
    · simp [SetInitialParticleData, recordedInto, *]

/-! ## The reference grid -/

/-- The first element of `List.range n` satisfying `p` is `i` exactly when `i < n`, `p i`
holds and `p` fails below `i`. -/
theorem find?_range_eq_some_iff (p : Nat → Bool) :
    ∀ n i : Nat, (List.range n).find? p = some i ↔
      (i < n ∧ p i = true ∧ ∀ j : Nat, j < i → p j = false) := by
  intro n
  induction n with
  | zero => intro i; simp
  | succ n ih =>
    intro i
    rw [List.range_succ, List.find?_append]
    cases h : (List.range n).find? p with
    | some k =>
      have hk := (ih k).1 h
      constructor
      · intro e
        have e2 : k = i := by simpa using e
        subst e2
        exact ⟨by omega, hk.2.1, hk.2.2⟩
      · rintro ⟨_, hp, hlt⟩
        rcases Nat.lt_trichotomy i k with hlt2 | heq | hgt
        · have := hk.2.2 i hlt2; simp [hp] at this
        · simp [heq]
        · have := hlt k hgt; simp [hk.2.1] at this
    | none =>
      have hn : ∀ j : Nat, j < n → p j = false := by
        intro j hj
        have := List.find?_eq_none.1 h j (List.mem_range.2 hj)
        simpa using this
      by_cases hpn : p n = true
      · constructor
        · intro e
          have e2 : n = i := by simpa [List.find?, hpn] using e
          subst e2
          exact ⟨by omega, hpn, hn⟩
        · rintro ⟨hi, hp, _⟩
          have : i = n := by
            by_contra hne
            have := hn i (by omega)
            simp [hp] at this
          simp [List.find?, this, hpn]
      · constructor
        · intro e
          simp [List.find?, hpn] at e
        · rintro ⟨hi, hp, _⟩
          exfalso
          by_cases hin : i = n
          · subst hin; exact hpn hp
          · have := hn i (by omega)
            simp [hp] at this

/-- No element of `List.range n` satisfies `p` exactly when `p` fails below `n`. -/
theorem find?_range_eq_none_iff (p : Nat → Bool) (n : Nat) :
    (List.range n).find? p = none ↔ ∀ j : Nat, j < n → p j = false := by
  rw [List.find?_eq_none]
  constructor
  · intro h j hj; simpa using h j (List.mem_range.2 hj)
  · intro h j hj; simpa using h j (List.mem_range.1 hj)

/-- C26 (what the code does): `findMemoryType` returns `i` exactly when `i` is the least
index below `memoryTypeCount` whose bit is set in `memoryTypeBits` and whose property
flags contain every requested bit; control reaches the end of the function without a
returned value exactly when no index below `memoryTypeCount` qualifies, as on a device
whose only memory type is device-local when host-visible, host-coherent memory is
requested, or on a device reporting no memory type. -/
theorem findMemoryType_least_index_or_no_value :
    (∀ (memProperties : VkPhysicalDeviceMemoryProperties)
        (requirements : VkMemoryRequirements)
        (properties : List VkMemoryPropertyFlagBits) (i : Nat),
      findMemoryType memProperties requirements properties = some i ↔
        (i < memProperties.memoryTypeCount ∧
          (requirements.memoryTypeBits.testBit i
            && properties.all fun p => (memProperties.memoryTypes.getD i []).contains p)
            = true ∧
          ∀ j : Nat, j < i →
            (requirements.memoryTypeBits.testBit j
              && properties.all fun p => (memProperties.memoryTypes.getD j []).contains p)
              = false)) ∧
    (∀ (memProperties : VkPhysicalDeviceMemoryProperties)
        (requirements : VkMemoryRequirements)
        (properties : List VkMemoryPropertyFlagBits),
      findMemoryType memProperties requirements properties = none ↔
        ∀ j : Nat, j < memProperties.memoryTypeCount →
          (requirements.memoryTypeBits.testBit j
            && properties.all fun p => (memProperties.memoryTypes.getD j []).contains p)
            = false) ∧
    findMemoryType deviceLocalOnly { size := 640000, alignment := 256, memoryTypeBits := 1 }
      [VkMemoryPropertyFlagBits.VK_MEMORY_PROPERTY_HOST_VISIBLE_BIT,
       VkMemoryPropertyFlagBits.VK_MEMORY_PROPERTY_HOST_COHERENT_BIT] = none ∧
    findMemoryType { memoryTypeCount := 0, memoryTypes := [] }
      { size := 640000, alignment := 256, memoryTypeBits := 1 }
      [VkMemoryPropertyFlagBits.VK_MEMORY_PROPERTY_DEVICE_LOCAL_BIT] = none ∧
    findMemoryType twoMemoryTypes { size := 640000, alignment := 256, memoryTypeBits := 3 }
      [VkMemoryPropertyFlagBits.VK_MEMORY_PROPERTY_HOST_VISIBLE_BIT,
       VkMemoryPropertyFlagBits.VK_MEMORY_PROPERTY_HOST_COHERENT_BIT] = some 1 ∧
    Call.vkAllocateMemory 640000 none
      ∈ (SetInitialParticleData
          { StagingDriver.allSucceed with
            memoryProperties := deviceLocalOnly,
            memoryRequirements := { size := 640000, alignment := 256, memoryTypeBits := 1 } }
          SPH_NUM_PARTICLES Application.constructed).calls := by
  refine ⟨?_, ?_, by decide, by decide, by decide, by decide⟩
  · intro memProperties requirements properties i
    exact find?_range_eq_some_iff _ _ i
  · intro memProperties requirements properties
    exact find?_range_eq_none_iff _ _

end SPH
